import Mathlib

/-!
# Fabric: token server manager and the LocalCollections integration scenarios

A shallow embedding of two source files of the repository:

* `token/server/manager.go`: the per-channel factory `Manager` with its two
  methods `GetIssuer` and `GetTransactor`;
* `integration/pvtdata/localcollections_test.go`: the helpers `put`, `putErr`,
  `invoke`, `query` and the three `It` bodies of `Describe("LocalCollections")`.

The test file is straight-line code: every statement issues one command to the
network together with the outcome the test expects.  A test body is embedded as
the list of the steps it performs, in order; each helper is a function that
builds the step it performs.  `By(...)` narration lines print text only and are
not steps.
-/

/-! ## token/server/manager.go -/

namespace errors

/-- The error built by `errors.Wrapf(err, format, args...)`: the cause and the
formatted message put in front of it. -/
structure Wrapped (E : Type) where
  cause : E
  msg : String
deriving DecidableEq, Repr

/-- The call `errors.Wrapf(err, "<text>: %s", channel)` for a non-nil `err`. -/
def Wrapf {E : Type} (err : E) (text : String) (channel : String) : Wrapped E :=
  { cause := err, msg := text ++ channel }

end errors

namespace plain

/-- The struct literal `plain.Issuer{TokenOwnerValidator: ...}`. -/
structure Issuer (V : Type) where
  TokenOwnerValidator : V
deriving DecidableEq, Repr

/-- The struct literal `plain.Transactor{Ledger, PublicCredential,
TokenOwnerValidator}`: the three fields `GetTransactor` sets. -/
structure Transactor (L V : Type) where
  Ledger : L
  PublicCredential : List UInt8
  TokenOwnerValidator : V
deriving DecidableEq, Repr

end plain

namespace server

/-- The struct `Manager`.  Each of its two fields is an interface of which the
manager calls one method, `GetLedgerReader(channel)` and `Get(channel)`; a
field is that method, returning the Go pair (value, error) with `none` for a
nil error. -/
structure Manager (L V E : Type) where
  LedgerManager : String → L × Option E
  TokenOwnerValidatorManager : String → V × Option E

/-- The method `Manager.GetIssuer`; the Go result pair (Issuer, error), `none`
standing for nil. -/
def Manager.GetIssuer {L V E : Type} (m : Manager L V E) (channel : String)
    (_privateCredential _publicCredential : List UInt8) :
    Option (plain.Issuer V) × Option (errors.Wrapped E) :=
  match m.TokenOwnerValidatorManager channel with
  | (_, some err) =>
    (none, some (errors.Wrapf err "failed getting token owner validator for channel: " channel))
  | (tokenOwnerValidator, none) =>
    (some { TokenOwnerValidator := tokenOwnerValidator }, none)

/-- The method `Manager.GetTransactor`; the Go result pair (Transactor, error),
`none` standing for nil. -/
def Manager.GetTransactor {L V E : Type} (m : Manager L V E) (channel : String)
    (_privateCredential publicCredential : List UInt8) :
    Option (plain.Transactor L V) × Option (errors.Wrapped E) :=
  match m.LedgerManager channel with
  | (_, some err) =>
    (none, some (errors.Wrapf err "failed getting ledger for channel: " channel))
  | (ledger, none) =>
    match m.TokenOwnerValidatorManager channel with
    | (_, some err) =>
      (none, some (errors.Wrapf err "failed getting token owner validator for channel: " channel))
    | (tokenOwnerValidator, none) =>
      (some { Ledger := ledger
              PublicCredential := publicCredential
              TokenOwnerValidator := tokenOwnerValidator }, none)

end server

/-! ## integration/pvtdata/localcollections_test.go: data -/

namespace pvtdata

/-- A channel name of the test: the package constant `channelID`, which is
declared in another file and kept symbolic, or a string literal. -/
inductive ChannelName where
  | channelID
  | lit (s : String)
deriving DecidableEq, Repr

end pvtdata

namespace nwo

/-- A peer as the test names it: `network.Peer(org, name)` looks a peer up by
these two fields, and `org2Peer1` is built with them. -/
structure Peer where
  Name : String
  Organization : String
deriving DecidableEq, Repr

/-- The entry `nwo.PeerChannel{Name: ...}` of a peer's `Channels`. -/
structure PeerChannel where
  Name : pvtdata.ChannelName
deriving DecidableEq, Repr

/-- The orderer returned by `network.Orderer(name)`. -/
structure Orderer where
  Name : String
deriving DecidableEq, Repr

/-- Port names; the test uses `nwo.ListenPort` only. -/
inductive PortName where
  | ListenPort
deriving DecidableEq, Repr

/-- The value of `network.PeerAddress(peer, port)`, kept symbolic. -/
structure PeerAddr where
  peer : Peer
  port : PortName
deriving DecidableEq, Repr

/-- The value of `network.OrdererAddress(orderer, port)`, kept symbolic. -/
structure OrdererAddr where
  orderer : Orderer
  port : PortName
deriving DecidableEq, Repr

/-- One element of a `filepath.Join`. -/
inductive PathElem where
  | lit (s : String)
  | RootDir
deriving DecidableEq, Repr

/-- A path-valued field of `nwo.Chaincode`, kept symbolic: the zero value, the
result of `components.Build(pkg)`, or a `filepath.Join`. -/
inductive PathExpr where
  | unset
  | Build (pkg : String)
  | Join (elems : List PathElem)
deriving DecidableEq, Repr

/-- The fields of `nwo.Chaincode` the test sets. -/
structure Chaincode where
  Name : String
  Version : String
  Path : PathExpr
  Lang : String
  PackageFile : PathExpr
  Label : String
  SignaturePolicy : String
  Sequence : String
  CollectionsConfig : PathExpr := PathExpr.unset
deriving DecidableEq, Repr

end nwo

namespace pvtdata

/-- The package struct `chaincode{Chaincode: nwo.Chaincode{...}}`. -/
structure chaincode where
  Chaincode : nwo.Chaincode
deriving DecidableEq, Repr

end pvtdata

namespace network

/-- The lookup `network.Peer(orgName, peerName)`. -/
def Peer (orgName peerName : String) : nwo.Peer :=
  { Name := peerName, Organization := orgName }

/-- The lookup `network.Orderer(name)`. -/
def Orderer (name : String) : nwo.Orderer := { Name := name }

/-- The call `network.PeerAddress(peer, port)`. -/
def PeerAddress (peer : nwo.Peer) (port : nwo.PortName) : nwo.PeerAddr :=
  { peer := peer, port := port }

/-- The call `network.OrdererAddress(orderer, port)`. -/
def OrdererAddress (orderer : nwo.Orderer) (port : nwo.PortName) : nwo.OrdererAddr :=
  { orderer := orderer, port := port }

end network

namespace msp

/-- The enum `msp.MSPPrincipal_Classification`; the test uses `ROLE`. -/
inductive MSPPrincipal_Classification where
  | ROLE
deriving DecidableEq, Repr

/-- The enum `msp.MSPRole_MSPRoleType`; the test uses `MEMBER`. -/
inductive MSPRole_MSPRoleType where
  | MEMBER
deriving DecidableEq, Repr

/-- The message `msp.MSPRole`. -/
structure MSPRole where
  Role : MSPRole_MSPRoleType
  MspIdentifier : String
deriving DecidableEq, Repr

/-- The message `msp.MSPPrincipal`; `Principal` holds the marshalled
`MSPRole`, kept as the role itself. -/
structure MSPPrincipal where
  PrincipalClassification : MSPPrincipal_Classification
  Principal : MSPRole
deriving DecidableEq, Repr

end msp

namespace common

/-- The message `common.SignaturePolicy`: `SignedBy` an identity index, or
`NOutOf` a list of rules. -/
inductive SignaturePolicy where
  | SignedBy (SignedBy : Int)
  | NOutOf (N : Int) (Rules : List SignaturePolicy)
deriving Repr

mutual
/-- Equality of two signature policies is decidable. -/
def SignaturePolicy.decEq : (a b : SignaturePolicy) → Decidable (a = b)
  | SignaturePolicy.SignedBy i, SignaturePolicy.SignedBy j =>
    if h : i = j then isTrue (h ▸ rfl)
    else isFalse (fun h2 => h (SignaturePolicy.SignedBy.inj h2))
  | SignaturePolicy.NOutOf n rs, SignaturePolicy.NOutOf m ss =>
    if h : n = m then
      match SignaturePolicy.decEqList rs ss with
      | isTrue h2 => isTrue (h ▸ h2 ▸ rfl)
      | isFalse h2 => isFalse (fun h3 => h2 (SignaturePolicy.NOutOf.inj h3).2)
    else isFalse (fun h3 => h (SignaturePolicy.NOutOf.inj h3).1)
  | SignaturePolicy.SignedBy _, SignaturePolicy.NOutOf _ _ =>
    isFalse (fun h => SignaturePolicy.noConfusion h)
  | SignaturePolicy.NOutOf _ _, SignaturePolicy.SignedBy _ =>
    isFalse (fun h => SignaturePolicy.noConfusion h)
/-- Equality of two lists of signature policies is decidable. -/
def SignaturePolicy.decEqList : (as bs : List SignaturePolicy) → Decidable (as = bs)
  | [], [] => isTrue rfl
  | [], _ :: _ => isFalse (fun h => List.noConfusion h)
  | _ :: _, [] => isFalse (fun h => List.noConfusion h)
  | a :: as, b :: bs =>
    match SignaturePolicy.decEq a b with
    | isTrue h1 =>
      match SignaturePolicy.decEqList as bs with
      | isTrue h2 => isTrue (h1 ▸ h2 ▸ rfl)
      | isFalse h2 => isFalse (fun h => h2 (List.cons.inj h).2)
    | isFalse h1 => isFalse (fun h => h1 (List.cons.inj h).1)
end

instance : DecidableEq SignaturePolicy := SignaturePolicy.decEq

/-- The message `common.SignaturePolicyEnvelope`. -/
structure SignaturePolicyEnvelope where
  Identities : List msp.MSPPrincipal
  Rule : SignaturePolicy
deriving DecidableEq, Repr

end common

namespace commands

/-- The fields of `commands.ChaincodeInvoke` the test sets. -/
structure ChaincodeInvoke where
  ChannelID : pvtdata.ChannelName
  Orderer : nwo.OrdererAddr
  Name : String
  Ctor : String
  PeerAddresses : List nwo.PeerAddr
  WaitForEvent : Bool
deriving DecidableEq, Repr

/-- The fields of `commands.ChaincodeQuery` the test sets. -/
structure ChaincodeQuery where
  ChannelID : pvtdata.ChannelName
  Name : String
  Ctor : String
deriving DecidableEq, Repr

end commands

namespace pvtdata

/-- A command handed to `network.PeerUserSession`. -/
inductive Command where
  | Invoke (c : commands.ChaincodeInvoke)
  | Query (c : commands.ChaincodeQuery)
deriving DecidableEq, Repr

/-- The stream a `gbytes.Say` expectation reads: `sess` (standard output) or
`sess.Err`. -/
inductive Output where
  | Out
  | Err
deriving DecidableEq, Repr

/-- An expected message: a string of the test, or
`string(protoutil.MarshalOrPanic(envelope))` kept as the envelope. -/
inductive Msg where
  | text (s : String)
  | marshal (env : common.SignaturePolicyEnvelope)
deriving DecidableEq, Repr

/-- One statement of a test body: the command it issues and what the test
expects of it.
* `PeerUserSession peer user command exit stream expected` is
  `network.PeerUserSession(peer, user, command)` followed by the expectations
  `gexec.Exit(exit)` and `gbytes.Say(expected)` on `stream`;
* `invokeChaincode` and `invokeChaincodeWithError` are calls of the two
  package helpers of those names;
* the others are the calls of the same name. -/
inductive Step where
  | deployChaincode (orderer : nwo.Orderer) (cc : chaincode)
  | invokeChaincode (peer : nwo.Peer) (command : commands.ChaincodeInvoke)
  | invokeChaincodeWithError (peer : nwo.Peer) (command : commands.ChaincodeInvoke)
      (expectedErrMsg : String)
  | PeerUserSession (peer : nwo.Peer) (user : String) (command : Command)
      (exit : Int) (stream : Output) (expected : Msg)
  | addPeer (orderer : nwo.Orderer) (peer : nwo.Peer) (channels : List nwo.PeerChannel)
  | installChaincode (cc : chaincode) (peer : nwo.Peer)
  | WaitUntilEqualLedgerHeight (channel : String) (heightOf : nwo.Peer)
      (heightChannel : String) (peers : List nwo.Peer)
deriving DecidableEq, Repr

/-! ## integration/pvtdata/localcollections_test.go: helpers -/

/-- The helper `invoke`. -/
def invoke (peer : nwo.Peer) (orderer : nwo.Orderer) (args : String) : Step :=
  Step.invokeChaincode peer
    { ChannelID := ChannelName.channelID
      Orderer := network.OrdererAddress orderer nwo.PortName.ListenPort
      Name := "pvtdatacc"
      Ctor := args
      PeerAddresses := [network.PeerAddress peer nwo.PortName.ListenPort]
      WaitForEvent := true }

/-- The helper `put`. -/
def put (peer : nwo.Peer) (orderer : nwo.Orderer) (key value : String) : Step :=
  invoke peer orderer
    ("\x7b\"Args\":[\"put\",\"+local\",\"" ++ key ++ "\",\"" ++ value ++ "\"]\x7d")

/-- The helper `putErr`. -/
def putErr (peer : nwo.Peer) (orderer : nwo.Orderer)
    (key value expectedErrMsg : String) : Step :=
  Step.invokeChaincodeWithError peer
    { ChannelID := ChannelName.channelID
      Orderer := network.OrdererAddress orderer nwo.PortName.ListenPort
      Name := "pvtdatacc"
      Ctor := "\x7b\"Args\":[\"put\",\"+local\",\"" ++ key ++ "\",\"" ++ value ++ "\"]\x7d"
      PeerAddresses := [network.PeerAddress peer nwo.PortName.ListenPort]
      WaitForEvent := true }
    expectedErrMsg

/-- The helper `query`: the session exits with `expectedRv` and says
`expectedMsg`, on the error stream when `errorExpected`. -/
def query (peer : nwo.Peer) (chid ccid args : String) (expectedRv : Int)
    (errorExpected : Bool) (expectedMsg : Msg) : Step :=
  Step.PeerUserSession peer "User1"
    (Command.Query { ChannelID := ChannelName.lit chid, Name := ccid, Ctor := args })
    expectedRv (if errorExpected then Output.Err else Output.Out) expectedMsg

/-- The peer `org2Peer1` of `BeforeEach`. -/
def org2Peer1 : nwo.Peer := { Name := "peer1", Organization := "Org2" }

/-- The `Channels` of `org2Peer1` as `BeforeEach` sets them. -/
def org2Peer1Channels : List nwo.PeerChannel := [{ Name := ChannelName.channelID }]

/-! ## integration/pvtdata/localcollections_test.go: the three test bodies -/

/-- The body of `It("Using Local Collections together with state-level endorsement")`;
`orderer` is the one `BeforeEach` sets. -/
def stateLevelEndorsement : List Step :=
  let orderer := network.Orderer "orderer"
  let cc : chaincode :=
    { Chaincode :=
        { Name := "pvtdatacc"
          Version := "1.0"
          Path := nwo.PathExpr.Build "github.com/hyperledger/fabric/integration/chaincode/simplepvtdata/cmd"
          Lang := "binary"
          PackageFile := nwo.PathExpr.Join [nwo.PathElem.RootDir, nwo.PathElem.lit "pvtdata-cc.tar.gz"]
          Label := "pvtdatacc-label"
          SignaturePolicy := "OR ('Org1MSP.member','Org2MSP.member', 'Org3MSP.member')"
          Sequence := "1"
          CollectionsConfig := nwo.PathExpr.Join [nwo.PathElem.lit "testdata", nwo.PathElem.lit "collection_configs", nwo.PathElem.lit "collections_config1.json"] } }
  [ Step.deployChaincode orderer cc,
    put (network.Peer "Org2" "peer0") orderer "foo" "bar1",
    query (network.Peer "Org2" "peer0") "testchannel" "pvtdatacc"
      "\x7b\"Args\":[\"get\",\"+local\",\"foo\"]\x7d"
      0 false (Msg.text "bar1"),
    invoke (network.Peer "Org2" "peer0") orderer
      "\x7b\"Args\":[\"metaset\",\"+local\",\"foo\", \"Org1MSP\"]\x7d",
    query (network.Peer "Org2" "peer0") "testchannel" "pvtdatacc"
      "\x7b\"Args\":[\"metaget\",\"+local\",\"foo\"]\x7d"
      0 false
      (Msg.marshal
        { Identities := [{ PrincipalClassification := msp.MSPPrincipal_Classification.ROLE
                           Principal := { Role := msp.MSPRole_MSPRoleType.MEMBER
                                          MspIdentifier := "Org1MSP" } }]
          Rule := common.SignaturePolicy.NOutOf 1 [common.SignaturePolicy.SignedBy 0] }),
    putErr (network.Peer "Org2" "peer0") orderer "foo" "bar2"
      "\\Qcommitted with status (ENDORSEMENT_POLICY_FAILURE)\\E",
    put (network.Peer "Org1" "peer0") orderer "foo" "bar2",
    query (network.Peer "Org1" "peer0") "testchannel" "pvtdatacc"
      "\x7b\"Args\":[\"get\",\"+local\",\"foo\"]\x7d"
      0 false (Msg.text "bar2"),
    invoke (network.Peer "Org1" "peer0") orderer
      "\x7b\"Args\":[\"putandset\",\"+local\",\"foo1\", \"bar3\", \"Org1MSP\"]\x7d",
    query (network.Peer "Org1" "peer0") "testchannel" "pvtdatacc"
      "\x7b\"Args\":[\"get\",\"+local\",\"foo1\"]\x7d"
      0 false (Msg.text "bar3"),
    query (network.Peer "Org1" "peer0") "testchannel" "pvtdatacc"
      "\x7b\"Args\":[\"metaget\",\"+local\",\"foo1\"]\x7d"
      0 false
      (Msg.marshal
        { Identities := [{ PrincipalClassification := msp.MSPPrincipal_Classification.ROLE
                           Principal := { Role := msp.MSPRole_MSPRoleType.MEMBER
                                          MspIdentifier := "Org1MSP" } }]
          Rule := common.SignaturePolicy.NOutOf 1 [common.SignaturePolicy.SignedBy 0] }) ]

/-- The body of
`It("Using Local Collections on a chaincode that has collections defined")`. -/
def collectionsDefined : List Step :=
  let orderer := network.Orderer "orderer"
  let cc : chaincode :=
    { Chaincode :=
        { Name := "pvtdatacc"
          Version := "1.0"
          Path := nwo.PathExpr.Build "github.com/hyperledger/fabric/integration/chaincode/simplepvtdata/cmd"
          Lang := "binary"
          PackageFile := nwo.PathExpr.Join [nwo.PathElem.RootDir, nwo.PathElem.lit "pvtdata-cc.tar.gz"]
          Label := "pvtdatacc-label"
          SignaturePolicy := "OR ('Org1MSP.member','Org2MSP.member', 'Org3MSP.member')"
          Sequence := "1"
          CollectionsConfig := nwo.PathExpr.Join [nwo.PathElem.lit "testdata", nwo.PathElem.lit "collection_configs", nwo.PathElem.lit "collections_config1.json"] } }
  [ Step.deployChaincode orderer cc,
    put (network.Peer "Org2" "peer0") orderer "foo" "bar1",
    query (network.Peer "Org2" "peer0") "testchannel" "pvtdatacc"
      "\x7b\"Args\":[\"get\",\"+local\",\"foo\"]\x7d"
      0 false (Msg.text "bar1"),
    query (network.Peer "Org1" "peer0") "testchannel" "pvtdatacc"
      "\x7b\"Args\":[\"get\",\"+local\",\"foo\"]\x7d"
      1 true (Msg.text "private data matching public hash version is not available"),
    query (network.Peer "Org3" "peer0") "testchannel" "pvtdatacc"
      "\x7b\"Args\":[\"get\",\"+local\",\"foo\"]\x7d"
      1 true (Msg.text "private data matching public hash version is not available"),
    put (network.Peer "Org1" "peer0") orderer "foo" "bar2",
    query (network.Peer "Org1" "peer0") "testchannel" "pvtdatacc"
      "\x7b\"Args\":[\"get\",\"+local\",\"foo\"]\x7d"
      0 false (Msg.text "bar2"),
    query (network.Peer "Org2" "peer0") "testchannel" "pvtdatacc"
      "\x7b\"Args\":[\"get\",\"+local\",\"foo\"]\x7d"
      1 true (Msg.text "private data matching public hash version is not available"),
    query (network.Peer "Org3" "peer0") "testchannel" "pvtdatacc"
      "\x7b\"Args\":[\"get\",\"+local\",\"foo\"]\x7d"
      1 true (Msg.text "private data matching public hash version is not available"),
    Step.PeerUserSession (network.Peer "Org1" "peer0") "User1"
      (Command.Invoke
        { ChannelID := ChannelName.lit "testchannel"
          Orderer := network.OrdererAddress orderer nwo.PortName.ListenPort
          Name := "pvtdatacc"
          Ctor := "\x7b\"Args\":[\"put\",\"+local\",\"foo\",\"bar3\"]\x7d"
          PeerAddresses :=
            [network.PeerAddress (network.Peer "Org1" "peer0") nwo.PortName.ListenPort,
             network.PeerAddress (network.Peer "Org2" "peer0") nwo.PortName.ListenPort]
          WaitForEvent := true })
      0 Output.Err (Msg.text "Chaincode invoke successful."),
    query (network.Peer "Org1" "peer0") "testchannel" "pvtdatacc"
      "\x7b\"Args\":[\"get\",\"+local\",\"foo\"]\x7d"
      0 false (Msg.text "bar3"),
    query (network.Peer "Org2" "peer0") "testchannel" "pvtdatacc"
      "\x7b\"Args\":[\"get\",\"+local\",\"foo\"]\x7d"
      0 false (Msg.text "bar3"),
    query (network.Peer "Org3" "peer0") "testchannel" "pvtdatacc"
      "\x7b\"Args\":[\"get\",\"+local\",\"foo\"]\x7d"
      1 true (Msg.text "private data matching public hash version is not available"),
    Step.addPeer orderer org2Peer1 org2Peer1Channels,
    Step.installChaincode cc org2Peer1,
    Step.WaitUntilEqualLedgerHeight "testchannel" (network.Peer "Org1" "peer0") "testchannel"
      [(network.Peer "Org1" "peer0"),
       (network.Peer "Org2" "peer0"),
       org2Peer1,
       (network.Peer "Org3" "peer0")],
    query org2Peer1 "testchannel" "pvtdatacc"
      "\x7b\"Args\":[\"get\",\"+local\",\"foo\"]\x7d"
      1 true (Msg.text "private data matching public hash version is not available"),
    Step.PeerUserSession (network.Peer "Org1" "peer0") "User1"
      (Command.Invoke
        { ChannelID := ChannelName.lit "testchannel"
          Orderer := network.OrdererAddress orderer nwo.PortName.ListenPort
          Name := "pvtdatacc"
          Ctor := "\x7b\"Args\":[\"put\",\"+local\",\"foo\",\"bar4\"]\x7d"
          PeerAddresses :=
            [network.PeerAddress (network.Peer "Org2" "peer0") nwo.PortName.ListenPort,
             network.PeerAddress (network.Peer "Org2" "peer1") nwo.PortName.ListenPort]
          WaitForEvent := true })
      0 Output.Err (Msg.text "Chaincode invoke successful."),
    query (network.Peer "Org2" "peer0") "testchannel" "pvtdatacc"
      "\x7b\"Args\":[\"get\",\"+local\",\"foo\"]\x7d"
      0 false (Msg.text "bar4"),
    query (network.Peer "Org2" "peer1") "testchannel" "pvtdatacc"
      "\x7b\"Args\":[\"get\",\"+local\",\"foo\"]\x7d"
      0 false (Msg.text "bar4"),
    Step.PeerUserSession (network.Peer "Org1" "peer0") "User1"
      (Command.Invoke
        { ChannelID := ChannelName.lit "testchannel"
          Orderer := network.OrdererAddress orderer nwo.PortName.ListenPort
          Name := "pvtdatacc"
          Ctor := "\x7b\"Args\":[\"put\",\"+local\",\"foo\",\"bar5\"]\x7d"
          PeerAddresses :=
            [network.PeerAddress (network.Peer "Org2" "peer0") nwo.PortName.ListenPort,
             network.PeerAddress (network.Peer "Org3" "peer0") nwo.PortName.ListenPort]
          WaitForEvent := true })
      0 Output.Err (Msg.text "Chaincode invoke successful."),
    Step.WaitUntilEqualLedgerHeight "testchannel" (network.Peer "Org1" "peer0") "testchannel"
      [(network.Peer "Org1" "peer0"),
       (network.Peer "Org2" "peer0"),
       org2Peer1,
       (network.Peer "Org3" "peer0")],
    query (network.Peer "Org2" "peer0") "testchannel" "pvtdatacc"
      "\x7b\"Args\":[\"get\",\"+local\",\"foo\"]\x7d"
      0 false (Msg.text "bar5"),
    query (network.Peer "Org3" "peer0") "testchannel" "pvtdatacc"
      "\x7b\"Args\":[\"get\",\"+local\",\"foo\"]\x7d"
      0 false (Msg.text "bar5"),
    query (network.Peer "Org2" "peer1") "testchannel" "pvtdatacc"
      "\x7b\"Args\":[\"get\",\"+local\",\"foo\"]\x7d"
      1 true (Msg.text "private data matching public hash version is not available"),
    query (network.Peer "Org1" "peer0") "testchannel" "pvtdatacc"
      "\x7b\"Args\":[\"get\",\"+local\",\"foo\"]\x7d"
      1 true (Msg.text "private data matching public hash version is not available"),
    Step.PeerUserSession (network.Peer "Org1" "peer0") "User1"
      (Command.Invoke
        { ChannelID := ChannelName.lit "testchannel"
          Orderer := network.OrdererAddress orderer nwo.PortName.ListenPort
          Name := "pvtdatacc"
          Ctor := "\x7b\"Args\":[\"put\",\"+local\",\"foo\",\"bar6\",\"collectionMarbles\",\"foo\",\"bar7\"]\x7d"
          PeerAddresses :=
            [network.PeerAddress (network.Peer "Org1" "peer0") nwo.PortName.ListenPort]
          WaitForEvent := true })
      0 Output.Err (Msg.text "Chaincode invoke successful."),
    query (network.Peer "Org1" "peer0") "testchannel" "pvtdatacc"
      "\x7b\"Args\":[\"get\",\"+local\",\"foo\"]\x7d"
      0 false (Msg.text "bar6"),
    query (network.Peer "Org2" "peer0") "testchannel" "pvtdatacc"
      "\x7b\"Args\":[\"get\",\"+local\",\"foo\"]\x7d"
      1 true (Msg.text "private data matching public hash version is not available"),
    query (network.Peer "Org2" "peer1") "testchannel" "pvtdatacc"
      "\x7b\"Args\":[\"get\",\"+local\",\"foo\"]\x7d"
      1 true (Msg.text "private data matching public hash version is not available"),
    query (network.Peer "Org3" "peer0") "testchannel" "pvtdatacc"
      "\x7b\"Args\":[\"get\",\"+local\",\"foo\"]\x7d"
      1 true (Msg.text "private data matching public hash version is not available"),
    query (network.Peer "Org1" "peer0") "testchannel" "pvtdatacc"
      "\x7b\"Args\":[\"get\",\"collectionMarbles\",\"foo\"]\x7d"
      0 false (Msg.text "bar7"),
    query (network.Peer "Org2" "peer0") "testchannel" "pvtdatacc"
      "\x7b\"Args\":[\"get\",\"collectionMarbles\",\"foo\"]\x7d"
      0 false (Msg.text "bar7"),
    query (network.Peer "Org2" "peer1") "testchannel" "pvtdatacc"
      "\x7b\"Args\":[\"get\",\"collectionMarbles\",\"foo\"]\x7d"
      0 false (Msg.text "bar7"),
    query (network.Peer "Org3" "peer0") "testchannel" "pvtdatacc"
      "\x7b\"Args\":[\"get\",\"collectionMarbles\",\"foo\"]\x7d"
      1 true (Msg.text "private data matching public hash version is not available") ]

/-- The body of
`It("Using Local Collections on a chaincode that has no collections defined")`. -/
def noCollectionsDefined : List Step :=
  let orderer := network.Orderer "orderer"
  let cc : chaincode :=
    { Chaincode :=
        { Name := "pvtdatacc"
          Version := "1.0"
          Path := nwo.PathExpr.Build "github.com/hyperledger/fabric/integration/chaincode/simplepvtdata/cmd"
          Lang := "binary"
          PackageFile := nwo.PathExpr.Join [nwo.PathElem.RootDir, nwo.PathElem.lit "pvtdata-cc.tar.gz"]
          Label := "pvtdatacc-label"
          SignaturePolicy := "OR ('Org1MSP.member','Org2MSP.member', 'Org3MSP.member')"
          Sequence := "1" } }
  [ Step.deployChaincode orderer cc,
    put (network.Peer "Org2" "peer0") orderer "foo" "bar1",
    query (network.Peer "Org2" "peer0") "testchannel" "pvtdatacc"
      "\x7b\"Args\":[\"get\",\"+local\",\"foo\"]\x7d"
      0 false (Msg.text "bar1"),
    query (network.Peer "Org1" "peer0") "testchannel" "pvtdatacc"
      "\x7b\"Args\":[\"get\",\"+local\",\"foo\"]\x7d"
      1 true (Msg.text "private data matching public hash version is not available"),
    query (network.Peer "Org3" "peer0") "testchannel" "pvtdatacc"
      "\x7b\"Args\":[\"get\",\"+local\",\"foo\"]\x7d"
      1 true (Msg.text "private data matching public hash version is not available"),
    put (network.Peer "Org1" "peer0") orderer "foo" "bar2",
    query (network.Peer "Org1" "peer0") "testchannel" "pvtdatacc"
      "\x7b\"Args\":[\"get\",\"+local\",\"foo\"]\x7d"
      0 false (Msg.text "bar2"),
    query (network.Peer "Org2" "peer0") "testchannel" "pvtdatacc"
      "\x7b\"Args\":[\"get\",\"+local\",\"foo\"]\x7d"
      1 true (Msg.text "private data matching public hash version is not available"),
    query (network.Peer "Org3" "peer0") "testchannel" "pvtdatacc"
      "\x7b\"Args\":[\"get\",\"+local\",\"foo\"]\x7d"
      1 true (Msg.text "private data matching public hash version is not available"),
    Step.PeerUserSession (network.Peer "Org1" "peer0") "User1"
      (Command.Invoke
        { ChannelID := ChannelName.lit "testchannel"
          Orderer := network.OrdererAddress orderer nwo.PortName.ListenPort
          Name := "pvtdatacc"
          Ctor := "\x7b\"Args\":[\"put\",\"+local\",\"foo\",\"bar3\"]\x7d"
          PeerAddresses :=
            [network.PeerAddress (network.Peer "Org1" "peer0") nwo.PortName.ListenPort,
             network.PeerAddress (network.Peer "Org2" "peer0") nwo.PortName.ListenPort]
          WaitForEvent := true })
      0 Output.Err (Msg.text "Chaincode invoke successful."),
    query (network.Peer "Org1" "peer0") "testchannel" "pvtdatacc"
      "\x7b\"Args\":[\"get\",\"+local\",\"foo\"]\x7d"
      0 false (Msg.text "bar3"),
    query (network.Peer "Org2" "peer0") "testchannel" "pvtdatacc"
      "\x7b\"Args\":[\"get\",\"+local\",\"foo\"]\x7d"
      0 false (Msg.text "bar3"),
    query (network.Peer "Org3" "peer0") "testchannel" "pvtdatacc"
      "\x7b\"Args\":[\"get\",\"+local\",\"foo\"]\x7d"
      1 true (Msg.text "private data matching public hash version is not available"),
    Step.addPeer orderer org2Peer1 org2Peer1Channels,
    Step.installChaincode cc org2Peer1,
    Step.WaitUntilEqualLedgerHeight "testchannel" (network.Peer "Org1" "peer0") "testchannel"
      [(network.Peer "Org1" "peer0"),
       (network.Peer "Org2" "peer0"),
       org2Peer1,
       (network.Peer "Org3" "peer0")],
    query org2Peer1 "testchannel" "pvtdatacc"
      "\x7b\"Args\":[\"get\",\"+local\",\"foo\"]\x7d"
      1 true (Msg.text "private data matching public hash version is not available"),
    Step.PeerUserSession (network.Peer "Org1" "peer0") "User1"
      (Command.Invoke
        { ChannelID := ChannelName.lit "testchannel"
          Orderer := network.OrdererAddress orderer nwo.PortName.ListenPort
          Name := "pvtdatacc"
          Ctor := "\x7b\"Args\":[\"put\",\"+local\",\"foo\",\"bar4\"]\x7d"
          PeerAddresses :=
            [network.PeerAddress (network.Peer "Org2" "peer0") nwo.PortName.ListenPort,
             network.PeerAddress (network.Peer "Org2" "peer1") nwo.PortName.ListenPort]
          WaitForEvent := true })
      0 Output.Err (Msg.text "Chaincode invoke successful."),
    query (network.Peer "Org2" "peer0") "testchannel" "pvtdatacc"
      "\x7b\"Args\":[\"get\",\"+local\",\"foo\"]\x7d"
      0 false (Msg.text "bar4"),
    query (network.Peer "Org2" "peer1") "testchannel" "pvtdatacc"
      "\x7b\"Args\":[\"get\",\"+local\",\"foo\"]\x7d"
      0 false (Msg.text "bar4"),
    Step.PeerUserSession (network.Peer "Org1" "peer0") "User1"
      (Command.Invoke
        { ChannelID := ChannelName.lit "testchannel"
          Orderer := network.OrdererAddress orderer nwo.PortName.ListenPort
          Name := "pvtdatacc"
          Ctor := "\x7b\"Args\":[\"put\",\"+local\",\"foo\",\"bar5\"]\x7d"
          PeerAddresses :=
            [network.PeerAddress (network.Peer "Org2" "peer0") nwo.PortName.ListenPort,
             network.PeerAddress (network.Peer "Org3" "peer0") nwo.PortName.ListenPort]
          WaitForEvent := true })
      0 Output.Err (Msg.text "Chaincode invoke successful."),
    Step.WaitUntilEqualLedgerHeight "testchannel" (network.Peer "Org1" "peer0") "testchannel"
      [(network.Peer "Org1" "peer0"),
       (network.Peer "Org2" "peer0"),
       org2Peer1,
       (network.Peer "Org3" "peer0")],
    query (network.Peer "Org2" "peer0") "testchannel" "pvtdatacc"
      "\x7b\"Args\":[\"get\",\"+local\",\"foo\"]\x7d"
      0 false (Msg.text "bar5"),
    query (network.Peer "Org3" "peer0") "testchannel" "pvtdatacc"
      "\x7b\"Args\":[\"get\",\"+local\",\"foo\"]\x7d"
      0 false (Msg.text "bar5"),
    query (network.Peer "Org2" "peer1") "testchannel" "pvtdatacc"
      "\x7b\"Args\":[\"get\",\"+local\",\"foo\"]\x7d"
      1 true (Msg.text "private data matching public hash version is not available"),
    query (network.Peer "Org1" "peer0") "testchannel" "pvtdatacc"
      "\x7b\"Args\":[\"get\",\"+local\",\"foo\"]\x7d"
      1 true (Msg.text "private data matching public hash version is not available") ]

/-! ## Reading the steps of a test body

The chaincode functions and their arguments are read off the `Ctor` string, a
JSON object holding the list `Args` of strings. -/

/-- The pieces of a character list between double quotes, in order: `inside`
tells whether a quote is open and `cur` holds the open piece, reversed. -/
def quotedAux : List Char → Bool → List Char → List (List Char)
  | [], _, _ => []
  | c :: cs, false, cur =>
    if c = '"' then quotedAux cs true [] else quotedAux cs false cur
  | c :: cs, true, cur =>
    if c = '"' then cur.reverse :: quotedAux cs false [] else quotedAux cs true (c :: cur)

/-- The scan of `quotedAux` over a first part of a text: the pieces closed
within it, and the state (`inside`, `cur`) the scan ends in. -/
def quotedScan : List Char → Bool → List Char → List (List Char) × Bool × List Char
  | [], inside, cur => ([], inside, cur)
  | c :: cs, false, cur =>
    if c = '"' then quotedScan cs true [] else quotedScan cs false cur
  | c :: cs, true, cur =>
    if c = '"' then
      (cur.reverse :: (quotedScan cs false []).1, (quotedScan cs false []).2)
    else quotedScan cs true (c :: cur)

/-- The quoted strings of a text, in order. -/
def quoted (s : String) : List String :=
  (quotedAux s.data false []).map String.mk

/-- The arguments of a `Ctor`: the quoted strings after the name `Args`. -/
def ctorArgs (ctor : String) : List String :=
  match quoted ctor with
  | [] => []
  | name :: args => if name = "Args" then args else []

/-- A list of strings cut into (collection, key, value) triples. -/
def triples : List String → List (String × String × String)
  | c :: k :: v :: rest => (c, k, v) :: triples rest
  | _ => []

/-- The private-data writes a `Ctor` asks for: `put` takes any number of
(collection, key, value) triples, `putandset` takes one followed by an
organization. -/
def ctorWrites (ctor : String) : List (String × String × String) :=
  match ctorArgs ctor with
  | [] => []
  | f :: args =>
    if f = "put" then triples args
    else if f = "putandset" then triples (args.take 3)
    else []

/-- The key policy a `Ctor` sets, as (collection, key, organization): `metaset`
takes the three, `putandset` takes them around the value. -/
def ctorPolicySet (ctor : String) : Option (String × String × String) :=
  match ctorArgs ctor with
  | [f, c, k, org] => if f = "metaset" then some (c, k, org) else none
  | [f, c, k, _, org] => if f = "putandset" then some (c, k, org) else none
  | _ => none

/-- A chaincode invocation of a test body and whether the test expects it to
commit (`errMsg` is the expected error message when it does not). -/
structure Invocation where
  submitter : nwo.Peer
  command : commands.ChaincodeInvoke
  succeeds : Bool
  errMsg : Option String
deriving DecidableEq, Repr

/-- The invocation a step makes.  A session written out in the test body is
expected to succeed when its expected exit code is 0.  The package helpers
`invokeChaincode` and `invokeChaincodeWithError` are declared in another file of
the package; they are read by their names and arguments: the first expects the
invocation to succeed, the second expects it to fail with the given message. -/
def Step.invocation? : Step → Option Invocation
  | Step.invokeChaincode peer command =>
    some { submitter := peer, command := command, succeeds := true, errMsg := none }
  | Step.invokeChaincodeWithError peer command expectedErrMsg =>
    some { submitter := peer, command := command, succeeds := false,
           errMsg := some expectedErrMsg }
  | Step.PeerUserSession peer _ (Command.Invoke command) exit _ _ =>
    some { submitter := peer, command := command, succeeds := decide (exit = 0),
           errMsg := none }
  | _ => none

/-- The peers an invocation is sent to for endorsement. -/
def Invocation.endorsers (inv : Invocation) : List nwo.Peer :=
  inv.command.PeerAddresses.map (fun a => a.peer)

/-- A committed private-data write. -/
structure Write where
  collection : String
  key : String
  value : String
  endorsers : List nwo.Peer
  submitter : nwo.Peer
deriving DecidableEq, Repr

/-- The writes a step commits: those of an invocation that is expected to
succeed and waits for the commit event. -/
def Step.writes (s : Step) : List Write :=
  match s.invocation? with
  | none => []
  | some inv =>
    if inv.succeeds && inv.command.WaitForEvent then
      (ctorWrites inv.command.Ctor).map (fun w =>
        { collection := w.1, key := w.2.1, value := w.2.2,
          endorsers := inv.endorsers, submitter := inv.submitter })
    else []

/-- The text of an expected message, when it is one. -/
def Msg.text? : Msg → Option String
  | Msg.text s => some s
  | Msg.marshal _ => none

/-- The envelope of an expected message, when it is one. -/
def Msg.envelope? : Msg → Option common.SignaturePolicyEnvelope
  | Msg.text _ => none
  | Msg.marshal env => some env

/-- A chaincode query of a test body: function, collection and key from the
`Ctor`, the queried peer and the expected outcome. -/
structure Read where
  peer : nwo.Peer
  function : String
  collection : String
  key : String
  exit : Int
  stream : Output
  expected : Msg
deriving DecidableEq, Repr

/-- The query a step makes. -/
def Step.read? : Step → Option Read
  | Step.PeerUserSession peer _ (Command.Query q) exit stream expected =>
    match ctorArgs q.Ctor with
    | [f, c, k] =>
      some { peer := peer, function := f, collection := c, key := k,
             exit := exit, stream := stream, expected := expected }
    | _ => none
  | _ => none

/-- The most recent committed write to (collection, key) among the steps. -/
def lastWrite (c k : String) : List Step → Option Write
  | [] => none
  | s :: rest =>
    match lastWrite c k rest with
    | some w => some w
    | none => (s.writes.filter (fun w => w.collection = c ∧ w.key = k)).getLast?

/-- A query together with the most recent committed write to its collection
and key among the steps before it. -/
structure Observation where
  read : Read
  last : Option Write
deriving DecidableEq, Repr

/-- The observations of the steps `rest` that follow the steps `before`. -/
def observationsFrom : List Step → List Step → List Observation
  | _, [] => []
  | before, s :: rest =>
    (match s.read? with
      | none => []
      | some r => [{ read := r, last := lastWrite r.collection r.key before }])
    ++ observationsFrom (before ++ [s]) rest

/-- The observations of a test body. -/
def observations (steps : List Step) : List Observation :=
  observationsFrom [] steps

/-- The message of a failing private-data read. -/
def unavailableMsg : String :=
  "private data matching public hash version is not available"

/-- The three test bodies of `Describe("LocalCollections")`. -/
def LocalCollections : List (List Step) :=
  [stateLevelEndorsement, collectionsDefined, noCollectionsDefined]

/-- The same invocation sent to other peers for endorsement: the command with
`PeerAddresses` replaced by the listen addresses of `peers`. -/
def Invocation.endorsedBy (inv : Invocation) (peers : List nwo.Peer) : Invocation :=
  { inv with
    command :=
      { inv.command with
        PeerAddresses := peers.map (fun p => network.PeerAddress p nwo.PortName.ListenPort) } }

/-- The invocations of a test body, in order. -/
def invocations (steps : List Step) : List Invocation :=
  steps.filterMap Step.invocation?

/-- The chaincode definition a step carries. -/
def Step.chaincode? : Step → Option chaincode
  | Step.deployChaincode _ cc => some cc
  | Step.installChaincode cc _ => some cc
  | _ => none

/-- The step with the `CollectionsConfig` of the chaincode definition it
carries replaced by `config`; the other steps carry none and stay as they
are. -/
def Step.setCollectionsConfig (config : nwo.PathExpr) : Step → Step
  | Step.deployChaincode orderer cc =>
    Step.deployChaincode orderer
      { cc with Chaincode := { cc.Chaincode with CollectionsConfig := config } }
  | Step.installChaincode cc peer =>
    Step.installChaincode
      { cc with Chaincode := { cc.Chaincode with CollectionsConfig := config } } peer
  | s => s

/-- What happens to one peer and one key in a test body. -/
inductive Event where
  | wrote (value : String) (endorsedByPeer : Bool) (endorsedByOrg : Bool)
  | joined
  | caughtUp
  | read (exit : Int) (stream : Output) (text : Option String)
deriving DecidableEq, Repr

/-- The events of one step for the peer `p` and the key `k` of collection `c`:
a committed write to the key (and whether `p`, or a peer of the organization of
`p`, endorsed it), `p` joining, a wait for equal ledger height that includes
`p`, a `get` of the key on `p`. -/
def Step.events (p : nwo.Peer) (c k : String) (s : Step) : List Event :=
  ((s.writes.filter (fun w => w.collection = c ∧ w.key = k)).map (fun w =>
      Event.wrote w.value (decide (p ∈ w.endorsers))
        (decide (p.Organization ∈ w.endorsers.map (fun e => e.Organization)))))
  ++ (match s with
      | Step.addPeer _ q _ => if q = p then [Event.joined] else []
      | Step.WaitUntilEqualLedgerHeight _ _ _ peers =>
        if p ∈ peers then [Event.caughtUp] else []
      | _ => [])
  ++ (match s.read? with
      | none => []
      | some r =>
        if r.peer = p ∧ r.function = "get" ∧ r.collection = c ∧ r.key = k then
          [Event.read r.exit r.stream r.expected.text?]
        else [])

/-- What happens to the endorsement policy of one key in a test body: a
committed invocation that sets it (chaincode function, organization named,
endorsing peers), or a `metaget` of it (queried peer and expected outcome). -/
inductive PolicyEvent where
  | set (function : String) (organization : String) (endorsers : List nwo.Peer)
  | got (peer : nwo.Peer) (exit : Int) (stream : Output) (expected : Msg)
deriving DecidableEq, Repr

/-- The policy events of one step for the key `k` of collection `c`. -/
def Step.policyEvents (c k : String) (s : Step) : List PolicyEvent :=
  (match s.invocation? with
    | none => []
    | some inv =>
      if inv.succeeds && inv.command.WaitForEvent then
        match ctorPolicySet inv.command.Ctor with
        | none => []
        | some g =>
          if g.1 = c ∧ g.2.1 = k then
            [PolicyEvent.set ((ctorArgs inv.command.Ctor).headD "") g.2.2 inv.endorsers]
          else []
      else [])
  ++ (match s.read? with
      | none => []
      | some r =>
        if r.function = "metaget" ∧ r.collection = c ∧ r.key = k then
          [PolicyEvent.got r.peer r.exit r.stream r.expected]
        else [])

/-- The policy events of a test body for one key, in order. -/
def policyTimeline (c k : String) (steps : List Step) : List PolicyEvent :=
  (steps.map (Step.policyEvents c k)).flatten

/-- The events of a test body for one peer and one key, in order. -/
def timeline (p : nwo.Peer) (c k : String) (steps : List Step) : List Event :=
  (steps.map (Step.events p c k)).flatten

end pvtdata

/-! ## The state-based endorsement engine of the specification -/

namespace engine

mutual
/-- Modelled from the spec: the policy evaluation of the State-Based
Endorsement Engine (section 4.6, "N-of-M signed-by-organization rules") is
peer code outside these sources.  A rule `SignedBy i` holds when the
organization of identity `i` is among the signing organizations, a rule
`NOutOf n rules` when at least `n` of its rules hold. -/
def satisfiedBy (ids : List msp.MSPPrincipal) (signers : List String) :
    common.SignaturePolicy → Bool
  | common.SignaturePolicy.SignedBy i =>
    match ids.get? i.toNat with
    | some p => decide (0 ≤ i) && signers.contains p.Principal.MspIdentifier
    | none => false
  | common.SignaturePolicy.NOutOf n rules => decide (n ≤ countSatisfied ids signers rules)
/-- Modelled from the spec: the number of rules of a list that hold, for the
N-of-M rules of section 4.6. -/
def countSatisfied (ids : List msp.MSPPrincipal) (signers : List String) :
    List common.SignaturePolicy → Int
  | [] => 0
  | r :: rs => (if satisfiedBy ids signers r then 1 else 0) + countSatisfied ids signers rs
end

/-- Modelled from the spec: a policy is a signature rule over organization
principals (section 3, KeyEndorsementPolicy); it holds for a set of
endorsements when its rule does. -/
def satisfied (policy : common.SignaturePolicyEnvelope) (endorsements : List String) : Bool :=
  satisfiedBy policy.Identities endorsements policy.Rule

/-- Modelled from the spec: the record KeyEndorsementPolicy of section 3,
{collection, key, policy}. -/
structure KeyEndorsementPolicy where
  collection : String
  key : String
  policy : common.SignaturePolicyEnvelope
deriving DecidableEq, Repr

/-- Modelled from the spec: the state of the State-Based Endorsement Engine
(sections 2 and 4.6), the default policy of the collection or chaincode and
the per-key override store. -/
structure Engine where
  defaultPolicy : common.SignaturePolicyEnvelope
  overrides : List KeyEndorsementPolicy
deriving DecidableEq, Repr

/-- Modelled from the spec: `getPolicy(collection, key) -> policy |
default-marker` of section 4.6 (`getKeyPolicy` of section 6); `none` is the
default marker. -/
def getPolicy (e : Engine) (c k : String) : Option common.SignaturePolicyEnvelope :=
  (e.overrides.find? (fun o => o.collection = c ∧ o.key = k)).map (fun o => o.policy)

/-- Modelled from the spec: the effective policy of section 4.6, "override if
present, else collection/chaincode default". -/
def effectivePolicy (e : Engine) (c k : String) : common.SignaturePolicyEnvelope :=
  (getPolicy e c k).getD e.defaultPolicy

/-- Modelled from the spec: the outcomes of `validate` in section 4.6,
`Pass | Fail(ENDORSEMENT_POLICY_FAILURE)`. -/
inductive ValidationCode where
  | Pass
  | ENDORSEMENT_POLICY_FAILURE
deriving DecidableEq, Repr

/-- Modelled from the spec: `validate(collection, key, collectedEndorsements)`
of section 4.6. -/
def validate (e : Engine) (c k : String) (endorsements : List String) : ValidationCode :=
  if satisfied (effectivePolicy e c k) endorsements then ValidationCode.Pass
  else ValidationCode.ENDORSEMENT_POLICY_FAILURE

/-- Modelled from the spec: the override write of section 3, which "either
fully replaces the policy or fails": the store with the policy of
(collection, key) replaced. -/
def setKeyPolicy (overrides : List KeyEndorsementPolicy) (c k : String)
    (policy : common.SignaturePolicyEnvelope) : List KeyEndorsementPolicy :=
  { collection := c, key := k, policy := policy } ::
    overrides.filter (fun o => ¬ (o.collection = c ∧ o.key = k))

/-- Modelled from the spec: `setPolicy(collection, key, policy)` of section
4.6, which "requires the write itself to satisfy the currently effective policy
for that key"; a write that does not is refused and changes nothing. -/
def setPolicy (e : Engine) (c k : String) (policy : common.SignaturePolicyEnvelope)
    (endorsements : List String) : Except ValidationCode Engine :=
  match validate e c k endorsements with
  | ValidationCode.Pass => Except.ok { e with overrides := setKeyPolicy e.overrides c k policy }
  | code => Except.error code

/-- Modelled from the spec: the network definition `initThreeOrgsSetup` is in
another file of the package; the member-service identifier of organization
`OrgN` is `OrgNMSP`, as the policy strings of the test name it. -/
def mspIdOf (organization : String) : String := organization ++ "MSP"

/-- Modelled from the spec: the chaincode `simplepvtdata` is outside these
sources; the policy it stores for an organization is the one the test expects
`metaget` to return, "1-out-of [signed-by identity 0]" with the single identity
the MEMBER role of the organization. -/
def signedByMember (mspId : String) : common.SignaturePolicyEnvelope :=
  { Identities := [{ PrincipalClassification := msp.MSPPrincipal_Classification.ROLE
                     Principal := { Role := msp.MSPRole_MSPRoleType.MEMBER
                                    MspIdentifier := mspId } }]
    Rule := common.SignaturePolicy.NOutOf 1 [common.SignaturePolicy.SignedBy 0] }

/-- Modelled from the spec: the policy-string parser is outside these sources;
`OR ('Org1MSP.member','Org2MSP.member', 'Org3MSP.member')`, the
`SignaturePolicy` of the chaincode in all three test bodies, is 1-out-of the
three signed-by rules over the MEMBER roles of the three organizations. -/
def orOfThreeOrgs : common.SignaturePolicyEnvelope :=
  { Identities :=
      ["Org1MSP", "Org2MSP", "Org3MSP"].map (fun id =>
        { PrincipalClassification := msp.MSPPrincipal_Classification.ROLE
          Principal := { Role := msp.MSPRole_MSPRoleType.MEMBER, MspIdentifier := id } })
    Rule := common.SignaturePolicy.NOutOf 1
      [common.SignaturePolicy.SignedBy 0, common.SignaturePolicy.SignedBy 1,
       common.SignaturePolicy.SignedBy 2] }

/-- Modelled from the spec: commit-time validation of one invocation (section
2, control flow, and section 4.6): every key the invocation writes or guards is
validated against its effective policy with the organizations of the endorsing
peers; when all pass, the policy the invocation sets (if any) replaces the
override of its key, otherwise nothing changes. -/
def commit (e : Engine) (inv : pvtdata.Invocation) : Engine × ValidationCode :=
  let endorsements := inv.endorsers.map (fun p => mspIdOf p.Organization)
  let written := (pvtdata.ctorWrites inv.command.Ctor).map (fun w => (w.1, w.2.1))
  let guarded := (pvtdata.ctorPolicySet inv.command.Ctor).toList.map (fun g => (g.1, g.2.1))
  if (written ++ guarded).all
      (fun ck => decide (validate e ck.1 ck.2 endorsements = ValidationCode.Pass)) then
    match pvtdata.ctorPolicySet inv.command.Ctor with
    | some (c, k, org) =>
      ({ e with overrides := setKeyPolicy e.overrides c k (signedByMember org) },
        ValidationCode.Pass)
    | none => (e, ValidationCode.Pass)
  else (e, ValidationCode.ENDORSEMENT_POLICY_FAILURE)

/-- Modelled from the spec: blocks apply in order (section 5); the outcomes of
a sequence of invocations committed one after the other. -/
def commitAll : Engine → List pvtdata.Invocation → List ValidationCode
  | _, [] => []
  | e, inv :: rest => (commit e inv).2 :: commitAll (commit e inv).1 rest

/-- Modelled from the spec: blocks apply in order (section 5); the engine
after a sequence of invocations committed one after the other. -/
def stateAfter : Engine → List pvtdata.Invocation → Engine
  | e, [] => e
  | e, inv :: rest => stateAfter (commit e inv).1 rest

end engine

/-! ## A concrete manager -/

namespace server

/-- A manager over string-valued readers, validators and errors: the ledger of
every channel but `nochannel` is found, and so is the validator of every
channel but `novalidator`. -/
def sampleManager : Manager String String String :=
  { LedgerManager := fun channel =>
      if channel = "nochannel" then ("", some "no ledger") else ("ledger of " ++ channel, none)
    TokenOwnerValidatorManager := fun channel =>
      if channel = "novalidator" then ("", some "no validator")
      else ("validator of " ++ channel, none) }

end server

/-! ## Theorems: the LocalCollections test bodies -/

namespace pvtdata

/-- C1: in each of the three test bodies, a `get` on `+local` that follows a
committed `+local` write to its key is expected to succeed (exit code 0, the
value of the most recent committed write on standard output) when the queried
peer is one of the peers the write was sent to for endorsement, and to fail
(exit code 1, on the error stream) for every other queried peer. -/
theorem local_get_gated_by_endorsers :
    ∀ sc ∈ LocalCollections, ∀ o ∈ observations sc,
      o.read.function = "get" → o.read.collection = "+local" → ∀ w ∈ o.last,
        (o.read.peer ∈ w.endorsers →
          o.read.exit = 0 ∧ o.read.stream = Output.Out ∧ o.read.expected = Msg.text w.value) ∧
        (o.read.peer ∉ w.endorsers → o.read.exit = 1 ∧ o.read.stream = Output.Err) := by
  decide

/-- C1 at concrete reads of the body with collections defined: after the write
of `bar5`, submitted through peer0.Org1 and endorsed by peer0.Org2 and
peer0.Org3, the read on the submitting peer0.Org1 fails and so does the read on
peer1.Org2, a peer of an endorsing organization; the read on the endorser
peer0.Org3 returns `bar5`. -/
theorem local_get_gated_by_endorsers_witness :
    (∃ o ∈ observations collectionsDefined, ∃ w ∈ o.last,
      o.read.peer = w.submitter ∧ o.read.peer ∉ w.endorsers ∧
      o.read.exit = 1 ∧ o.read.stream = Output.Err) ∧
    (∃ o ∈ observations collectionsDefined, ∃ w ∈ o.last,
      o.read.peer ∉ w.endorsers ∧
      o.read.peer.Organization ∈ w.endorsers.map (fun e => e.Organization) ∧
      o.read.exit = 1 ∧ o.read.stream = Output.Err) ∧
    (∃ o ∈ observations collectionsDefined, ∃ w ∈ o.last,
      o.read.peer = network.Peer "Org3" "peer0" ∧ w.value = "bar5" ∧
      o.read.exit = 0 ∧ o.read.stream = Output.Out ∧ o.read.expected = Msg.text "bar5") :=
  let w : Write :=
    { collection := "+local", key := "foo", value := "bar5",
      endorsers := [network.Peer "Org2" "peer0", network.Peer "Org3" "peer0"],
      submitter := network.Peer "Org1" "peer0" }
  let failing (p : nwo.Peer) : Observation :=
    { read := { peer := p, function := "get", collection := "+local", key := "foo",
                exit := 1, stream := Output.Err, expected := Msg.text unavailableMsg },
      last := some w }
  let passing : Observation :=
    { read := { peer := network.Peer "Org3" "peer0", function := "get",
                collection := "+local", key := "foo",
                exit := 0, stream := Output.Out, expected := Msg.text "bar5" },
      last := some w }
  ⟨⟨failing (network.Peer "Org1" "peer0"), by decide, w, rfl, by decide, by decide,
      (local_get_gated_by_endorsers collectionsDefined (by decide)
        (failing (network.Peer "Org1" "peer0")) (by decide) rfl rfl w rfl).2 (by decide)⟩,
    ⟨failing (network.Peer "Org2" "peer1"), by decide, w, rfl, by decide, by decide,
      (local_get_gated_by_endorsers collectionsDefined (by decide)
        (failing (network.Peer "Org2" "peer1")) (by decide) rfl rfl w rfl).2 (by decide)⟩,
    ⟨passing, by decide, w, rfl, rfl, rfl,
      (local_get_gated_by_endorsers collectionsDefined (by decide)
        passing (by decide) rfl rfl w rfl).1 (by decide)⟩⟩

/-- C2: in the three test bodies every query that is expected to fail (a
non-zero exit code, or a message on the error stream) expects exit code 1 and
the message "private data matching public hash version is not available" on
the error stream; among them are a read on a peer whose organization endorsed
nothing of the last write and a read on a non-endorsing peer of an organization
that did endorse it. -/
theorem failing_reads_share_one_shape :
    (∀ sc ∈ LocalCollections, ∀ o ∈ observations sc,
      (o.read.exit ≠ 0 ∨ o.read.stream = Output.Err) →
        o.read.exit = 1 ∧ o.read.stream = Output.Err ∧
        o.read.expected = Msg.text unavailableMsg) ∧
    (∃ sc ∈ LocalCollections, ∃ o ∈ observations sc, ∃ w ∈ o.last,
      o.read.peer.Organization ∉ w.endorsers.map (fun e => e.Organization) ∧
      o.read.exit = 1 ∧ o.read.stream = Output.Err ∧
      o.read.expected = Msg.text unavailableMsg) ∧
    (∃ sc ∈ LocalCollections, ∃ o ∈ observations sc, ∃ w ∈ o.last,
      o.read.peer ∉ w.endorsers ∧
      o.read.peer.Organization ∈ w.endorsers.map (fun e => e.Organization) ∧
      o.read.exit = 1 ∧ o.read.stream = Output.Err ∧
      o.read.expected = Msg.text unavailableMsg) ∧
    unavailableMsg = "private data matching public hash version is not available" := by
  decide

/-- C6: the last invocation of the body with collections defined is one
transaction, endorsed by peer0.Org1 alone, that writes `foo = bar6` to `+local`
and `foo = bar7` to `collectionMarbles`.  Of the reads that follow, those of
`+local` succeed on the endorser peer0.Org1 only and fail on peer0.Org2,
peer1.Org2 and peer0.Org3; those of `collectionMarbles` succeed on every
queried peer of Org1 and Org2, the non-endorsing peer0.Org2 and peer1.Org2
included, and fail on peer0.Org3. -/
theorem multi_collection_put_gated_independently :
    ((invocations collectionsDefined).getLast?.map
        (fun inv => (ctorWrites inv.command.Ctor, inv.endorsers, inv.succeeds,
          inv.command.WaitForEvent))) =
      some ([("+local", "foo", "bar6"), ("collectionMarbles", "foo", "bar7")],
        [network.Peer "Org1" "peer0"], true, true) ∧
    (∀ o ∈ observations collectionsDefined, ∀ w ∈ o.last, w.value = "bar6" →
      o.read.collection = "+local" ∧ w.endorsers = [network.Peer "Org1" "peer0"] ∧
      (o.read.peer ∈ w.endorsers →
        o.read.exit = 0 ∧ o.read.stream = Output.Out ∧ o.read.expected = Msg.text "bar6") ∧
      (o.read.peer ∉ w.endorsers →
        o.read.exit = 1 ∧ o.read.stream = Output.Err ∧
        o.read.expected = Msg.text unavailableMsg)) ∧
    (∀ o ∈ observations collectionsDefined, ∀ w ∈ o.last, w.value = "bar7" →
      o.read.collection = "collectionMarbles" ∧
      w.endorsers = [network.Peer "Org1" "peer0"] ∧
      (o.read.peer.Organization ∈ ["Org1", "Org2"] →
        o.read.exit = 0 ∧ o.read.stream = Output.Out ∧ o.read.expected = Msg.text "bar7") ∧
      (o.read.peer.Organization ∉ ["Org1", "Org2"] →
        o.read.exit = 1 ∧ o.read.stream = Output.Err ∧
        o.read.expected = Msg.text unavailableMsg)) ∧
    ((observations collectionsDefined).filter
        (fun o => o.last.any (fun w => w.value = "bar6"))).map (fun o => o.read.peer) =
      [network.Peer "Org1" "peer0", network.Peer "Org2" "peer0",
       network.Peer "Org2" "peer1", network.Peer "Org3" "peer0"] ∧
    ((observations collectionsDefined).filter
        (fun o => o.last.any (fun w => w.value = "bar7"))).map (fun o => o.read.peer) =
      [network.Peer "Org1" "peer0", network.Peer "Org2" "peer0",
       network.Peer "Org2" "peer1", network.Peer "Org3" "peer0"] := by
  refine ⟨by decide, by decide, by decide, by decide, by decide⟩

/-- C7: the first 26 steps of the body with collections defined, with the
`CollectionsConfig` of the chaincode definition they carry unset, are the body
without collections; their invocations and queries are the same untouched; the
chaincode definitions of the two bodies differ in `CollectionsConfig`; and the
step that follows the 26 is the invocation that writes to `+local` and to
`collectionMarbles`. -/
theorem local_steps_same_with_and_without_collections :
    (collectionsDefined.take 26).map (Step.setCollectionsConfig nwo.PathExpr.unset) =
      noCollectionsDefined ∧
    invocations (collectionsDefined.take 26) = invocations noCollectionsDefined ∧
    (collectionsDefined.take 26).filterMap Step.read? =
      noCollectionsDefined.filterMap Step.read? ∧
    observations (collectionsDefined.take 26) = observations noCollectionsDefined ∧
    (collectionsDefined.filterMap Step.chaincode?).map
        (fun cc => cc.Chaincode.CollectionsConfig) =
      [nwo.PathExpr.Join [nwo.PathElem.lit "testdata", nwo.PathElem.lit "collection_configs",
          nwo.PathElem.lit "collections_config1.json"],
       nwo.PathExpr.Join [nwo.PathElem.lit "testdata", nwo.PathElem.lit "collection_configs",
          nwo.PathElem.lit "collections_config1.json"]] ∧
    (noCollectionsDefined.filterMap Step.chaincode?).map
        (fun cc => cc.Chaincode.CollectionsConfig) =
      [nwo.PathExpr.unset, nwo.PathExpr.unset] ∧
    ((collectionsDefined.drop 26).head?.map Step.writes =
      some [ { collection := "+local", key := "foo", value := "bar6",
               endorsers := [network.Peer "Org1" "peer0"],
               submitter := network.Peer "Org1" "peer0" },
             { collection := "collectionMarbles", key := "foo", value := "bar7",
               endorsers := [network.Peer "Org1" "peer0"],
               submitter := network.Peer "Org1" "peer0" } ]) ∧
    (∀ s ∈ collectionsDefined.take 26, ∀ w ∈ s.writes, w.collection = "+local") ∧
    (∀ o ∈ observations (collectionsDefined.take 26), o.read.collection = "+local") := by
  decide

end pvtdata

/-! ## Theorems: key policies -/

namespace engine

/-- Looking up the key just set in an override store finds the policy set. -/
theorem find_setKeyPolicy (overrides : List KeyEndorsementPolicy) (c k : String)
    (policy : common.SignaturePolicyEnvelope) :
    (setKeyPolicy overrides c k policy).find? (fun o => o.collection = c ∧ o.key = k) =
      some { collection := c, key := k, policy := policy } := by
  simp [setKeyPolicy, List.find?]

/-- A policy write is accepted exactly when the endorsements satisfy the
effective policy, and then the store holds the new policy for the key. -/
theorem setPolicy_ok_iff (e : Engine) (c k : String) (policy : common.SignaturePolicyEnvelope)
    (endorsements : List String) (e2 : Engine) :
    setPolicy e c k policy endorsements = Except.ok e2 ↔
      satisfied (effectivePolicy e c k) endorsements = true ∧
      e2 = { e with overrides := setKeyPolicy e.overrides c k policy } := by
  unfold setPolicy validate
  by_cases h : satisfied (effectivePolicy e c k) endorsements = true
  · simp only [h, if_true]
    constructor
    · intro h2
      exact ⟨trivial, (Except.ok.inj h2).symm⟩
    · intro h2
      rw [h2.2]
  · simp only [h, if_false]
    constructor
    · intro h2
      cases h2
    · intro h2
      exact absurd h2.1 (by simp)

/-- A policy write whose endorsements do not satisfy the effective policy is
refused with ENDORSEMENT_POLICY_FAILURE. -/
theorem setPolicy_refused (e : Engine) (c k : String) (policy : common.SignaturePolicyEnvelope)
    (endorsements : List String)
    (h : satisfied (effectivePolicy e c k) endorsements = false) :
    setPolicy e c k policy endorsements =
      Except.error ValidationCode.ENDORSEMENT_POLICY_FAILURE := by
  unfold setPolicy validate
  simp [h]

/-- C4: in the engine of the specification a key policy that is set is the
policy `getPolicy` returns: for the override store itself, and for every
accepted `setPolicy`, after which it is also the effective policy.  In the test
body with state-level endorsement the policy of `+local`/`foo` is set by
`metaset` and that of `+local`/`foo1` by `putandset`, both for `Org1MSP`, and
the `metaget` that follows each is expected to succeed with the marshalled
envelope whose rule is 1-out-of [signed-by identity 0] and whose single
identity is the MEMBER role of `Org1MSP`. -/
theorem key_policy_round_trip :
    (∀ (e : Engine) (c k : String) (policy : common.SignaturePolicyEnvelope),
      getPolicy { e with overrides := setKeyPolicy e.overrides c k policy } c k =
        some policy) ∧
    (∀ (e : Engine) (c k : String) (policy : common.SignaturePolicyEnvelope)
        (endorsements : List String) (e2 : Engine),
      setPolicy e c k policy endorsements = Except.ok e2 →
        getPolicy e2 c k = some policy ∧ effectivePolicy e2 c k = policy) ∧
    pvtdata.policyTimeline "+local" "foo" pvtdata.stateLevelEndorsement =
      [ pvtdata.PolicyEvent.set "metaset" "Org1MSP" [network.Peer "Org2" "peer0"],
        pvtdata.PolicyEvent.got (network.Peer "Org2" "peer0") 0 pvtdata.Output.Out
          (pvtdata.Msg.marshal
            { Identities :=
                [{ PrincipalClassification := msp.MSPPrincipal_Classification.ROLE
                   Principal := { Role := msp.MSPRole_MSPRoleType.MEMBER
                                  MspIdentifier := "Org1MSP" } }]
              Rule := common.SignaturePolicy.NOutOf 1
                [common.SignaturePolicy.SignedBy 0] }) ] ∧
    pvtdata.policyTimeline "+local" "foo1" pvtdata.stateLevelEndorsement =
      [ pvtdata.PolicyEvent.set "putandset" "Org1MSP" [network.Peer "Org1" "peer0"],
        pvtdata.PolicyEvent.got (network.Peer "Org1" "peer0") 0 pvtdata.Output.Out
          (pvtdata.Msg.marshal
            { Identities :=
                [{ PrincipalClassification := msp.MSPPrincipal_Classification.ROLE
                   Principal := { Role := msp.MSPRole_MSPRoleType.MEMBER
                                  MspIdentifier := "Org1MSP" } }]
              Rule := common.SignaturePolicy.NOutOf 1
                [common.SignaturePolicy.SignedBy 0] }) ] := by
  refine ⟨?_, ?_, by decide, by decide⟩
  · intro e c k policy
    unfold getPolicy
    rw [find_setKeyPolicy]
    rfl
  · intro e c k policy endorsements e2 h
    have h2 := ((setPolicy_ok_iff e c k policy endorsements e2).mp h).2
    subst h2
    unfold effectivePolicy getPolicy
    rw [find_setKeyPolicy]
    exact ⟨rfl, rfl⟩

/-- C4 at a concrete write: on the engine with the default policy of the test
chaincode and no override, the policy of `+local`/`foo` set to signed-by
`Org1MSP` with the endorsement of `Org2MSP` is accepted and is then the policy
`getPolicy` returns. -/
theorem key_policy_round_trip_witness :
    setPolicy { defaultPolicy := orOfThreeOrgs, overrides := [] } "+local" "foo"
        (signedByMember "Org1MSP") ["Org2MSP"] =
      Except.ok { defaultPolicy := orOfThreeOrgs,
                  overrides := [{ collection := "+local", key := "foo",
                                  policy := signedByMember "Org1MSP" }] } ∧
    getPolicy { defaultPolicy := orOfThreeOrgs,
                overrides := [{ collection := "+local", key := "foo",
                                policy := signedByMember "Org1MSP" }] } "+local" "foo" =
      some (signedByMember "Org1MSP") :=
  have h : setPolicy { defaultPolicy := orOfThreeOrgs, overrides := [] } "+local" "foo"
        (signedByMember "Org1MSP") ["Org2MSP"] =
      Except.ok { defaultPolicy := orOfThreeOrgs,
                  overrides := [{ collection := "+local", key := "foo",
                                  policy := signedByMember "Org1MSP" }] } := by
    rfl
  ⟨h, (key_policy_round_trip.2.1 _ _ _ _ _ _ h).1⟩

/-- C8: in the engine of the specification a `setPolicy` is accepted exactly
when the endorsements of the write satisfy the effective policy of the key, it
is refused with ENDORSEMENT_POLICY_FAILURE otherwise, and the effective policy
of a key without override is the default policy.  In the test body with
state-level endorsement the chaincode policy is the OR of the three
organizations; no policy of `foo` is set before the `metaset`, which is
endorsed by peer0.Org2 alone and expected to commit, and which the engine
accepts under that default; the `putandset` on `foo1` is one step, endorsed by
peer0.Org1 alone, that commits the value `bar3` and the policy, on a key with
no earlier write or policy; and committing the invocations of the body in
order in the engine gives exactly the outcomes the test expects. -/
theorem policy_changes_self_gated :
    (∀ (e : Engine) (c k : String) (policy : common.SignaturePolicyEnvelope)
        (endorsements : List String),
      (∃ e2, setPolicy e c k policy endorsements = Except.ok e2) ↔
        satisfied (effectivePolicy e c k) endorsements = true) ∧
    (∀ (e : Engine) (c k : String) (policy : common.SignaturePolicyEnvelope)
        (endorsements : List String),
      satisfied (effectivePolicy e c k) endorsements = false →
        setPolicy e c k policy endorsements =
          Except.error ValidationCode.ENDORSEMENT_POLICY_FAILURE) ∧
    (∀ (e : Engine) (c k : String),
      getPolicy e c k = none → effectivePolicy e c k = e.defaultPolicy) ∧
    (pvtdata.stateLevelEndorsement.filterMap pvtdata.Step.chaincode?).map
        (fun cc => cc.Chaincode.SignaturePolicy) =
      ["OR ('Org1MSP.member','Org2MSP.member', 'Org3MSP.member')"] ∧
    pvtdata.policyTimeline "+local" "foo" (pvtdata.stateLevelEndorsement.take 3) = [] ∧
    (pvtdata.stateLevelEndorsement.drop 3).head?.map (pvtdata.Step.policyEvents "+local" "foo") =
      some [pvtdata.PolicyEvent.set "metaset" "Org1MSP" [network.Peer "Org2" "peer0"]] ∧
    setPolicy { defaultPolicy := orOfThreeOrgs, overrides := [] } "+local" "foo"
        (signedByMember "Org1MSP") [mspIdOf "Org2"] =
      Except.ok { defaultPolicy := orOfThreeOrgs,
                  overrides := [{ collection := "+local", key := "foo",
                                  policy := signedByMember "Org1MSP" }] } ∧
    pvtdata.policyTimeline "+local" "foo1" (pvtdata.stateLevelEndorsement.take 8) = [] ∧
    (∀ s ∈ pvtdata.stateLevelEndorsement.take 8, ∀ w ∈ s.writes, w.key ≠ "foo1") ∧
    ((pvtdata.stateLevelEndorsement.drop 8).head?.map
        (fun s => (s.writes, s.policyEvents "+local" "foo1")) =
      some ([ { collection := "+local", key := "foo1", value := "bar3",
                endorsers := [network.Peer "Org1" "peer0"],
                submitter := network.Peer "Org1" "peer0" } ],
            [pvtdata.PolicyEvent.set "putandset" "Org1MSP" [network.Peer "Org1" "peer0"]])) ∧
    pvtdata.timeline (network.Peer "Org1" "peer0") "+local" "foo1"
        pvtdata.stateLevelEndorsement =
      [ pvtdata.Event.wrote "bar3" true true,
        pvtdata.Event.read 0 pvtdata.Output.Out (some "bar3") ] ∧
    commitAll { defaultPolicy := orOfThreeOrgs, overrides := [] }
        (pvtdata.invocations pvtdata.stateLevelEndorsement) =
      (pvtdata.invocations pvtdata.stateLevelEndorsement).map (fun inv =>
        if inv.succeeds then ValidationCode.Pass
        else ValidationCode.ENDORSEMENT_POLICY_FAILURE) := by
  refine ⟨?_, ?_, ?_, by decide, by decide, by decide, by rfl, by decide, by decide,
    by decide, by decide, by decide⟩
  · intro e c k policy endorsements
    constructor
    · rintro ⟨e2, h⟩
      exact ((setPolicy_ok_iff e c k policy endorsements e2).mp h).1
    · intro h
      exact ⟨_, (setPolicy_ok_iff e c k policy endorsements _).mpr ⟨h, rfl⟩⟩
  · intro e c k policy endorsements h
    exact setPolicy_refused e c k policy endorsements h
  · intro e c k h
    simp [effectivePolicy, h]

/-- C8 at concrete writes: the engine with the default policy of the test
chaincode and `foo` guarded by signed-by `Org1MSP` refuses a policy write
endorsed by `Org2MSP` alone and accepts one endorsed by `Org1MSP`. -/
theorem policy_changes_self_gated_witness :
    setPolicy { defaultPolicy := orOfThreeOrgs,
                overrides := [{ collection := "+local", key := "foo",
                                policy := signedByMember "Org1MSP" }] }
        "+local" "foo" (signedByMember "Org2MSP") ["Org2MSP"] =
      Except.error ValidationCode.ENDORSEMENT_POLICY_FAILURE ∧
    satisfied (effectivePolicy
        { defaultPolicy := orOfThreeOrgs,
          overrides := [{ collection := "+local", key := "foo",
                          policy := signedByMember "Org1MSP" }] } "+local" "foo")
      ["Org1MSP"] = true :=
  ⟨policy_changes_self_gated.2.1 _ _ _ _ _ (by decide),
    (policy_changes_self_gated.1
      { defaultPolicy := orOfThreeOrgs,
        overrides := [{ collection := "+local", key := "foo",
                        policy := signedByMember "Org1MSP" }] }
      "+local" "foo" (signedByMember "Org2MSP") ["Org1MSP"]).mp ⟨_, rfl⟩⟩

end engine

/-! ## Theorems: token/server/manager.go -/

namespace server

/-- C9: when the ledger lookup and the validator lookup for the channel both
return a nil error, `GetTransactor` returns a nil error and the plain
transactor whose `Ledger` is the reader returned, whose `TokenOwnerValidator`
is the validator returned and whose `PublicCredential` is the public
credential passed. -/
theorem GetTransactor_ok {L V E : Type} (m : Manager L V E) (channel : String)
    (privateCredential publicCredential : List UInt8) (ledger : L) (tokenOwnerValidator : V)
    (hl : m.LedgerManager channel = (ledger, none))
    (hv : m.TokenOwnerValidatorManager channel = (tokenOwnerValidator, none)) :
    m.GetTransactor channel privateCredential publicCredential =
      (some { Ledger := ledger
              PublicCredential := publicCredential
              TokenOwnerValidator := tokenOwnerValidator }, none) := by
  unfold Manager.GetTransactor
  rw [hl]
  simp only []
  rw [hv]

/-- C9 at the sample manager and the channel `mychannel`. -/
theorem GetTransactor_ok_witness :
    sampleManager.GetTransactor "mychannel" [1, 2] [3, 4] =
      (some { Ledger := "ledger of mychannel"
              PublicCredential := [3, 4]
              TokenOwnerValidator := "validator of mychannel" }, none) :=
  GetTransactor_ok sampleManager "mychannel" [1, 2] [3, 4] "ledger of mychannel"
    "validator of mychannel" (by decide) (by decide)

/-- C10, the code against its doc comment: `GetTransactor` does not use the
private credential.  Two calls that differ in it alone return the same result;
at the sample manager, on `mychannel` with the public credential [9], the
private credentials [1] and [2] give the same transactor, which carries [9]
only. -/
theorem GetTransactor_drops_privateCredential :
    (∀ (L V E : Type) (m : Manager L V E) (channel : String)
        (private1 private2 publicCredential : List UInt8),
      m.GetTransactor channel private1 publicCredential =
        m.GetTransactor channel private2 publicCredential) ∧
    sampleManager.GetTransactor "mychannel" [1] [9] =
      (some { Ledger := "ledger of mychannel"
              PublicCredential := [9]
              TokenOwnerValidator := "validator of mychannel" }, none) ∧
    sampleManager.GetTransactor "mychannel" [2] [9] =
      sampleManager.GetTransactor "mychannel" [1] [9] ∧
    ([1] : List UInt8) ≠ [2] := by
  refine ⟨fun L V E m channel private1 private2 publicCredential => rfl, by decide, rfl,
    by decide⟩

end server

/-! ## Theorems: the errors of the manager -/

namespace server

/-- C11: `GetTransactor` returns a non-nil error exactly when the ledger lookup
or the validator lookup for the channel returns one, and then the Transactor is
nil.  A ledger error is returned as the cause under the message "failed getting
ledger for channel: " followed by the channel, whatever the validator manager
is; a validator error after a ledger lookup without error is returned as the
cause under "failed getting token owner validator for channel: " followed by
the channel. -/
theorem GetTransactor_error_cases {L V E : Type} (m : Manager L V E) (channel : String)
    (privateCredential publicCredential : List UInt8) :
    ((m.GetTransactor channel privateCredential publicCredential).2 ≠ none ↔
      ((m.LedgerManager channel).2 ≠ none ∨
        (m.TokenOwnerValidatorManager channel).2 ≠ none)) ∧
    ((m.GetTransactor channel privateCredential publicCredential).2 ≠ none →
      (m.GetTransactor channel privateCredential publicCredential).1 = none) ∧
    (∀ err : E, (m.LedgerManager channel).2 = some err →
      m.GetTransactor channel privateCredential publicCredential =
        (none, some { cause := err, msg := "failed getting ledger for channel: " ++ channel })) ∧
    (∀ (err : E) (validators : String → V × Option E),
      (m.LedgerManager channel).2 = some err →
        ({ m with TokenOwnerValidatorManager := validators } : Manager L V E).GetTransactor
            channel privateCredential publicCredential =
          m.GetTransactor channel privateCredential publicCredential) ∧
    (∀ err : E, (m.LedgerManager channel).2 = none →
      (m.TokenOwnerValidatorManager channel).2 = some err →
      m.GetTransactor channel privateCredential publicCredential =
        (none, some { cause := err,
                      msg := "failed getting token owner validator for channel: " ++ channel })) := by
  unfold Manager.GetTransactor
  rcases hl : m.LedgerManager channel with ⟨ledger, _ | e1⟩ <;>
    rcases hv : m.TokenOwnerValidatorManager channel with ⟨validator, _ | e2⟩ <;>
    simp [errors.Wrapf, hl, hv]

/-- C11 at the sample manager: on `nochannel` the ledger error is returned,
also when the validator lookup would fail too; on `novalidator` the validator
error is returned. -/
theorem GetTransactor_error_cases_witness :
    sampleManager.GetTransactor "nochannel" [1] [2] =
      (none, some { cause := "no ledger",
                    msg := "failed getting ledger for channel: " ++ "nochannel" }) ∧
    ({ sampleManager with
        TokenOwnerValidatorManager := fun _ => ("", some "no validator") } :
        Manager String String String).GetTransactor "nochannel" [1] [2] =
      (none, some { cause := "no ledger",
                    msg := "failed getting ledger for channel: " ++ "nochannel" }) ∧
    sampleManager.GetTransactor "novalidator" [1] [2] =
      (none, some { cause := "no validator",
                    msg := "failed getting token owner validator for channel: " ++
                      "novalidator" }) :=
  ⟨(GetTransactor_error_cases sampleManager "nochannel" [1] [2]).2.2.1 "no ledger"
      (by decide),
    (GetTransactor_error_cases
      ({ sampleManager with
          TokenOwnerValidatorManager := fun _ => ("", some "no validator") } :
        Manager String String String) "nochannel" [1] [2]).2.2.1 "no ledger" (by decide),
    (GetTransactor_error_cases sampleManager "novalidator" [1] [2]).2.2.2.2 "no validator"
      (by decide) (by decide)⟩

/-- C12: `GetIssuer` returns an Issuer and a nil error exactly when the
validator lookup for the channel returns a nil error, and the Issuer is then
the plain issuer holding the validator returned; otherwise it returns a nil
Issuer and the lookup error as the cause under "failed getting token owner
validator for channel: " followed by the channel. -/
theorem GetIssuer_cases {L V E : Type} (m : Manager L V E) (channel : String)
    (privateCredential publicCredential : List UInt8) :
    (((m.GetIssuer channel privateCredential publicCredential).1 ≠ none ∧
        (m.GetIssuer channel privateCredential publicCredential).2 = none) ↔
      (m.TokenOwnerValidatorManager channel).2 = none) ∧
    (∀ validator : V, m.TokenOwnerValidatorManager channel = (validator, none) →
      m.GetIssuer channel privateCredential publicCredential =
        (some { TokenOwnerValidator := validator }, none)) ∧
    (∀ err : E, (m.TokenOwnerValidatorManager channel).2 = some err →
      m.GetIssuer channel privateCredential publicCredential =
        (none, some { cause := err,
                      msg := "failed getting token owner validator for channel: " ++ channel })) := by
  unfold Manager.GetIssuer
  rcases hv : m.TokenOwnerValidatorManager channel with ⟨validator, _ | e2⟩ <;>
    simp [errors.Wrapf, hv]

/-- C12 at the sample manager: an Issuer on `mychannel`, the wrapped error on
`novalidator`. -/
theorem GetIssuer_cases_witness :
    sampleManager.GetIssuer "mychannel" [1] [2] =
      (some { TokenOwnerValidator := "validator of mychannel" }, none) ∧
    sampleManager.GetIssuer "novalidator" [1] [2] =
      (none, some { cause := "no validator",
                    msg := "failed getting token owner validator for channel: " ++
                      "novalidator" }) :=
  ⟨(GetIssuer_cases sampleManager "mychannel" [1] [2]).2.1 "validator of mychannel"
      (by decide),
    (GetIssuer_cases sampleManager "novalidator" [1] [2]).2.2 "no validator" (by decide)⟩

/-- C13: the result of `GetIssuer` is the same for any two pairs of
credentials and for any ledger manager put in place of the manager's own; at
the sample manager, on `nochannel`, `GetIssuer` returns an Issuer while
`GetTransactor` returns the ledger error. -/
theorem GetIssuer_depends_on_validators_only :
    (∀ (L V E : Type) (m : Manager L V E) (channel : String)
        (private1 public1 private2 public2 : List UInt8),
      m.GetIssuer channel private1 public1 = m.GetIssuer channel private2 public2) ∧
    (∀ (L V E : Type) (m : Manager L V E) (ledgers : String → L × Option E) (channel : String)
        (privateCredential publicCredential : List UInt8),
      ({ m with LedgerManager := ledgers } : Manager L V E).GetIssuer
          channel privateCredential publicCredential =
        m.GetIssuer channel privateCredential publicCredential) ∧
    sampleManager.GetIssuer "nochannel" [1] [2] =
      (some { TokenOwnerValidator := "validator of nochannel" }, none) ∧
    sampleManager.GetTransactor "nochannel" [1] [2] =
      (none, some { cause := "no ledger",
                    msg := "failed getting ledger for channel: nochannel" }) := by
  refine ⟨fun _ _ _ _ _ _ _ _ _ => rfl, fun _ _ _ _ _ _ _ _ => rfl, by decide, by decide⟩

end server

/-! ## Theorems: the helpers `put` and `putErr` -/

namespace pvtdata

/-- The pieces of a text are those closed within a first part, followed by
those of the rest read from the state the first part ends in. -/
theorem quotedAux_append (p rest : List Char) (inside : Bool) (cur : List Char) :
    quotedAux (p ++ rest) inside cur =
      (quotedScan p inside cur).1 ++
        quotedAux rest (quotedScan p inside cur).2.1 (quotedScan p inside cur).2.2 := by
  induction p generalizing inside cur with
  | nil => cases inside <;> simp [quotedScan]
  | cons c cs ih =>
    cases inside
    · by_cases h : c = '"'
      · simp [quotedAux, quotedScan, h, ih]
      · simp [quotedAux, quotedScan, h, ih]
    · by_cases h : c = '"'
      · simp [quotedAux, quotedScan, h, ih]
      · simp [quotedAux, quotedScan, h, ih]

/-- Inside a quote, characters without a double quote followed by one close
the piece. -/
theorem quotedAux_piece (cs rest cur : List Char) (h : '"' ∉ cs) :
    quotedAux (cs ++ '"' :: rest) true cur =
      (cur.reverse ++ cs) :: quotedAux rest false [] := by
  induction cs generalizing cur with
  | nil => simp [quotedAux]
  | cons c cs ih =>
    have hc : c ≠ '"' := fun e => h (e ▸ List.mem_cons_self _ _)
    have hcs : '"' ∉ cs := fun e => h (List.mem_cons_of_mem _ e)
    simp [quotedAux, hc, ih (c :: cur) hcs]

/-- The `Ctor` the helpers `put` and `putErr` build asks for one write, of the
key and value to `+local`, when neither holds a double quote. -/
theorem ctorWrites_put (key value : String) (hk : '"' ∉ key.data) (hv : '"' ∉ value.data) :
    ctorWrites
        ("\x7b\"Args\":[\"put\",\"+local\",\"" ++ key ++ "\",\"" ++ value ++ "\"]\x7d") =
      [("+local", key, value)] := by
  have hdata :
      ("\x7b\"Args\":[\"put\",\"+local\",\"" ++ key ++ "\",\"" ++ value ++ "\"]\x7d").data =
        "\x7b\"Args\":[\"put\",\"+local\",\"".data ++
          (key.data ++ '"' :: ([',', '"'] ++ (value.data ++ '"' :: [']', '\x7d']))) := by
    simp [String.data_append]
  have hscan : quotedScan "\x7b\"Args\":[\"put\",\"+local\",\"".data false [] =
      (["Args".data, "put".data, "+local".data], true, []) := by decide
  have hscan2 : quotedScan [',', '"'] false [] = ([], true, []) := by decide
  have hend : quotedAux [']', '\x7d'] false [] = [] := by decide
  unfold ctorWrites ctorArgs quoted
  rw [hdata, quotedAux_append, hscan]
  simp only []
  rw [quotedAux_piece _ _ _ hk, quotedAux_append, hscan2]
  simp only []
  rw [quotedAux_piece _ _ _ hv, hend]
  simp [triples]

/-- C14: for every peer, orderer, key and value the helpers `put` and `putErr`
hand the same command to the network: channel `channelID`, chaincode
`pvtdatacc`, the `Ctor` made of the fixed text around the key and the value,
the given peer as the only entry of `PeerAddresses`, and `WaitForEvent` set.
`put` passes it to `invokeChaincode` and `putErr` to
`invokeChaincodeWithError` with the expected error message: the first is
expected to succeed, the second to fail with that message.  When neither key
nor value holds a double quote the `Ctor` asks for the one write of the key and
value to `+local`. -/
theorem put_and_putErr_build_same_invocation (peer : nwo.Peer) (orderer : nwo.Orderer)
    (key value expectedErrMsg : String) :
    ∃ command : commands.ChaincodeInvoke,
      command =
        { ChannelID := ChannelName.channelID
          Orderer := network.OrdererAddress orderer nwo.PortName.ListenPort
          Name := "pvtdatacc"
          Ctor := "\x7b\"Args\":[\"put\",\"+local\",\"" ++ key ++ "\",\"" ++ value ++ "\"]\x7d"
          PeerAddresses := [network.PeerAddress peer nwo.PortName.ListenPort]
          WaitForEvent := true } ∧
      put peer orderer key value = Step.invokeChaincode peer command ∧
      putErr peer orderer key value expectedErrMsg =
        Step.invokeChaincodeWithError peer command expectedErrMsg ∧
      (put peer orderer key value).invocation? =
        some { submitter := peer, command := command, succeeds := true, errMsg := none } ∧
      (putErr peer orderer key value expectedErrMsg).invocation? =
        some { submitter := peer, command := command, succeeds := false,
               errMsg := some expectedErrMsg } ∧
      ('"' ∉ key.data → '"' ∉ value.data →
        ctorWrites command.Ctor = [("+local", key, value)]) :=
  ⟨_, rfl, rfl, rfl, rfl, rfl, fun hk hv => ctorWrites_put key value hk hv⟩

/-- C14 at the first write of the test bodies, `foo = bar1` through
peer0.Org2: the step `put` builds commits the one write of `foo = bar1` to
`+local`, endorsed by that peer alone, and the step `putErr` builds commits
nothing. -/
theorem put_and_putErr_build_same_invocation_witness :
    (put (network.Peer "Org2" "peer0") (network.Orderer "orderer") "foo" "bar1").writes =
      [ { collection := "+local", key := "foo", value := "bar1",
          endorsers := [network.Peer "Org2" "peer0"],
          submitter := network.Peer "Org2" "peer0" } ] ∧
    (putErr (network.Peer "Org2" "peer0") (network.Orderer "orderer") "foo" "bar1"
        "failed").writes = [] ∧
    ctorWrites "\x7b\"Args\":[\"put\",\"+local\",\"foo\",\"bar1\"]\x7d" =
      [("+local", "foo", "bar1")] := by
  obtain ⟨command, hc, _, _, _, _, h⟩ :=
    put_and_putErr_build_same_invocation (network.Peer "Org2" "peer0")
      (network.Orderer "orderer") "foo" "bar1" "failed"
  have h2 := h (by decide) (by decide)
  rw [hc] at h2
  exact ⟨by decide, by decide, h2⟩

end pvtdata

/-! ## Theorems: a guarded key and its endorsers -/

namespace engine

/-- The member-service identifier of an organization is `Org1MSP` exactly for
`Org1`. -/
theorem mspIdOf_eq_Org1MSP (organization : String) :
    mspIdOf organization = "Org1MSP" ↔ organization = "Org1" := by
  constructor
  · intro h
    have h2 : organization.data ++ "MSP".data = "Org1".data ++ "MSP".data := by
      have h3 := congrArg String.data h
      simpa [mspIdOf, String.data_append] using h3
    exact String.ext (List.append_cancel_right h2)
  · intro h
    subst h
    decide

/-- The policy signed-by the MEMBER role of one organization holds exactly
when that organization is among the endorsements. -/
theorem satisfied_signedByMember (mspId : String) (endorsements : List String) :
    satisfied (signedByMember mspId) endorsements = endorsements.contains mspId := by
  by_cases h : mspId ∈ endorsements <;>
    simp [satisfied, signedByMember, satisfiedBy, countSatisfied, h]

/-- The endorsers of an invocation sent to other peers are those peers. -/
theorem endorsers_endorsedBy (inv : pvtdata.Invocation) (peers : List nwo.Peer) :
    (inv.endorsedBy peers).endorsers = peers := by
  simp [pvtdata.Invocation.endorsers, pvtdata.Invocation.endorsedBy, network.PeerAddress,
    List.map_map, Function.comp_def]

/-- Committing an invocation that writes one key and sets no policy, when the
key is guarded by the policy signed-by member of one organization: it passes
exactly when that organization is among the organizations of the endorsers, and
the engine is unchanged either way. -/
theorem commit_guarded_write (e : Engine) (inv : pvtdata.Invocation) (c k v mspId : String)
    (hw : pvtdata.ctorWrites inv.command.Ctor = [(c, k, v)])
    (hp : pvtdata.ctorPolicySet inv.command.Ctor = none)
    (hg : getPolicy e c k = some (signedByMember mspId)) :
    commit e inv =
      (e, if (inv.endorsers.map (fun p => mspIdOf p.Organization)).contains mspId
          then ValidationCode.Pass else ValidationCode.ENDORSEMENT_POLICY_FAILURE) := by
  unfold commit
  simp only [hw, hp, validate, effectivePolicy, hg, Option.getD_some, satisfied_signedByMember,
    List.map_cons, List.map_nil, Option.toList, List.append_nil, List.all_cons, List.all_nil,
    Bool.and_true]
  cases h : (inv.endorsers.map (fun p => mspIdOf p.Organization)).contains mspId <;> simp

/-- C3: in the test body with state-level endorsement, after the `metaset` of
`foo` to `Org1MSP` the write `foo = bar2` endorsed by peer0.Org2 alone is
expected to fail with "committed with status (ENDORSEMENT_POLICY_FAILURE)",
and the write with the same command endorsed by peer0.Org1 is expected to
commit; its value is then read on peer0.Org1.  In the engine of the
specification, after the first two invocations of the body the key is guarded
by signed-by `Org1MSP`; the write endorsed by peer0.Org2 alone is refused with
ENDORSEMENT_POLICY_FAILURE and changes nothing; the same write sent to any
peers passes exactly when a peer of Org1 is among them, so it passes co-signed
by peer0.Org2 and peer0.Org1, and it passes as the test retries it. -/
theorem org2_alone_refused_with_org1_commits :
    (pvtdata.invocations pvtdata.stateLevelEndorsement).map
        (fun inv => (pvtdata.ctorArgs inv.command.Ctor, inv.endorsers, inv.succeeds,
          inv.errMsg)) =
      [ (["put", "+local", "foo", "bar1"], [network.Peer "Org2" "peer0"], true, none),
        (["metaset", "+local", "foo", "Org1MSP"], [network.Peer "Org2" "peer0"], true, none),
        (["put", "+local", "foo", "bar2"], [network.Peer "Org2" "peer0"], false,
          some "\\Qcommitted with status (ENDORSEMENT_POLICY_FAILURE)\\E"),
        (["put", "+local", "foo", "bar2"], [network.Peer "Org1" "peer0"], true, none),
        (["putandset", "+local", "foo1", "bar3", "Org1MSP"], [network.Peer "Org1" "peer0"],
          true, none) ] ∧
    (∀ inv ∈ pvtdata.invocations pvtdata.stateLevelEndorsement,
      inv.command.WaitForEvent = true) ∧
    pvtdata.timeline (network.Peer "Org1" "peer0") "+local" "foo"
        pvtdata.stateLevelEndorsement =
      [ pvtdata.Event.wrote "bar1" false false,
        pvtdata.Event.wrote "bar2" true true,
        pvtdata.Event.read 0 pvtdata.Output.Out (some "bar2") ] ∧
    getPolicy
        (stateAfter { defaultPolicy := orOfThreeOrgs, overrides := [] }
          ((pvtdata.invocations pvtdata.stateLevelEndorsement).take 2))
        "+local" "foo" =
      some (signedByMember "Org1MSP") ∧
    (∀ refused ∈ ((pvtdata.invocations pvtdata.stateLevelEndorsement).drop 2).head?,
      pvtdata.ctorWrites refused.command.Ctor = [("+local", "foo", "bar2")] ∧
      refused.endorsers = [network.Peer "Org2" "peer0"] ∧
      commit
          (stateAfter { defaultPolicy := orOfThreeOrgs, overrides := [] }
            ((pvtdata.invocations pvtdata.stateLevelEndorsement).take 2))
          refused =
        (stateAfter { defaultPolicy := orOfThreeOrgs, overrides := [] }
            ((pvtdata.invocations pvtdata.stateLevelEndorsement).take 2),
          ValidationCode.ENDORSEMENT_POLICY_FAILURE) ∧
      (∀ peers : List nwo.Peer,
        (commit
            (stateAfter { defaultPolicy := orOfThreeOrgs, overrides := [] }
              ((pvtdata.invocations pvtdata.stateLevelEndorsement).take 2))
            (refused.endorsedBy peers)).2 = ValidationCode.Pass ↔
          ∃ p ∈ peers, p.Organization = "Org1") ∧
      (commit
          (stateAfter { defaultPolicy := orOfThreeOrgs, overrides := [] }
            ((pvtdata.invocations pvtdata.stateLevelEndorsement).take 2))
          (refused.endorsedBy [network.Peer "Org2" "peer0", network.Peer "Org1" "peer0"])).2 =
        ValidationCode.Pass ∧
      (∀ retried ∈ ((pvtdata.invocations pvtdata.stateLevelEndorsement).drop 3).head?,
        retried.command = (refused.endorsedBy [network.Peer "Org1" "peer0"]).command ∧
        retried.succeeds = true ∧
        (commit
            (stateAfter { defaultPolicy := orOfThreeOrgs, overrides := [] }
              ((pvtdata.invocations pvtdata.stateLevelEndorsement).take 2))
            retried).2 = ValidationCode.Pass)) := by
  refine ⟨by decide, by decide, by decide, by decide, ?_⟩
  intro refused h
  have hfacts :
      pvtdata.ctorWrites refused.command.Ctor = [("+local", "foo", "bar2")] ∧
      pvtdata.ctorPolicySet refused.command.Ctor = none ∧
      refused.endorsers = [network.Peer "Org2" "peer0"] :=
    (by decide :
      ∀ r ∈ ((pvtdata.invocations pvtdata.stateLevelEndorsement).drop 2).head?,
        pvtdata.ctorWrites r.command.Ctor = [("+local", "foo", "bar2")] ∧
        pvtdata.ctorPolicySet r.command.Ctor = none ∧
        r.endorsers = [network.Peer "Org2" "peer0"]) refused h
  have hg :
      getPolicy
          (stateAfter { defaultPolicy := orOfThreeOrgs, overrides := [] }
            ((pvtdata.invocations pvtdata.stateLevelEndorsement).take 2))
          "+local" "foo" =
        some (signedByMember "Org1MSP") := by decide
  have hgen : ∀ peers : List nwo.Peer,
      (commit
          (stateAfter { defaultPolicy := orOfThreeOrgs, overrides := [] }
            ((pvtdata.invocations pvtdata.stateLevelEndorsement).take 2))
          (refused.endorsedBy peers)).2 = ValidationCode.Pass ↔
        ∃ p ∈ peers, p.Organization = "Org1" := by
    intro peers
    rw [commit_guarded_write _ (refused.endorsedBy peers) "+local" "foo" "bar2" "Org1MSP"
      hfacts.1 hfacts.2.1 hg, endorsers_endorsedBy]
    by_cases hc : (peers.map (fun p => mspIdOf p.Organization)).contains "Org1MSP" = true
    · simp only [hc, if_true, true_iff]
      have hm : "Org1MSP" ∈ peers.map (fun p => mspIdOf p.Organization) := by
        simpa using hc
      obtain ⟨p, hp, hp2⟩ := List.mem_map.mp hm
      exact ⟨p, hp, (mspIdOf_eq_Org1MSP _).mp hp2⟩
    · simp only [hc]
      constructor
      · intro h2
        cases h2
      · rintro ⟨p, hp, hp2⟩
        have hm : "Org1MSP" ∈ peers.map (fun p => mspIdOf p.Organization) :=
          List.mem_map.mpr ⟨p, hp, (mspIdOf_eq_Org1MSP _).mpr hp2⟩
        exact absurd (by simpa using hm) hc
  refine ⟨hfacts.1, hfacts.2.2, ?_, hgen, ?_, ?_⟩
  · rw [commit_guarded_write _ refused "+local" "foo" "bar2" "Org1MSP"
      hfacts.1 hfacts.2.1 hg, hfacts.2.2]
    rfl
  · exact (hgen _).mpr ⟨network.Peer "Org1" "peer0", by decide, rfl⟩
  · exact (by decide :
      ∀ r2 ∈ ((pvtdata.invocations pvtdata.stateLevelEndorsement).drop 2).head?,
      ∀ r3 ∈ ((pvtdata.invocations pvtdata.stateLevelEndorsement).drop 3).head?,
        r3.command = (r2.endorsedBy [network.Peer "Org1" "peer0"]).command ∧
        r3.succeeds = true ∧
        (commit
            (stateAfter { defaultPolicy := orOfThreeOrgs, overrides := [] }
              ((pvtdata.invocations pvtdata.stateLevelEndorsement).take 2))
            r3).2 = ValidationCode.Pass) refused h

/-- C3 at the write the test expects to fail: endorsed by peer0.Org2 alone
the engine refuses it with ENDORSEMENT_POLICY_FAILURE, co-signed by peer0.Org2
and peer0.Org1 the engine passes it. -/
theorem org2_alone_refused_with_org1_commits_witness :
    ∃ refused ∈ ((pvtdata.invocations pvtdata.stateLevelEndorsement).drop 2).head?,
      refused.endorsers = [network.Peer "Org2" "peer0"] ∧
      (commit
          (stateAfter { defaultPolicy := orOfThreeOrgs, overrides := [] }
            ((pvtdata.invocations pvtdata.stateLevelEndorsement).take 2))
          refused).2 = ValidationCode.ENDORSEMENT_POLICY_FAILURE ∧
      (commit
          (stateAfter { defaultPolicy := orOfThreeOrgs, overrides := [] }
            ((pvtdata.invocations pvtdata.stateLevelEndorsement).take 2))
          (refused.endorsedBy [network.Peer "Org2" "peer0", network.Peer "Org1" "peer0"])).2 =
        ValidationCode.Pass := by
  cases h : ((pvtdata.invocations pvtdata.stateLevelEndorsement).drop 2).head? with
  | none => exact absurd h (by decide)
  | some r =>
    have key := org2_alone_refused_with_org1_commits.2.2.2.2 r h
    exact ⟨r, rfl, key.2.1, congrArg Prod.snd key.2.2.1, key.2.2.2.2.1⟩

end engine
